import Mathlib

/-!
# Shticker Book Rewritten: the login worker

A shallow embedding of `src/loginworker.cpp` (class `LoginWorker`) and the
properties of its login protocol.

Modelling choices.

* The Qt values the worker handles are modelled by their documented
  behaviour: a `QJsonValue` is a tagged value whose `toString` yields the
  string of a string value and the empty string for every other type; a
  `QJsonDocument` is null (parse failure), an array or an object, and
  `object` yields the empty object unless the document is an object.
* `QJsonDocument::fromJson` is a library function, not code of the
  repository: every function takes it as the parameter `fromJson`.
* `loginApiWorker` (the blocking HTTP POST) answers from a script: the list
  `replies` of raw bodies still to come.  The two-factor window answers from
  the list `tokens`.  When the script has nothing left the nested event loop
  never quits: the outcome is `waiting`.
* Everything the worker does that can be seen from outside is appended to
  `trace`: signals, log lines, Transport calls, prompts, timer starts and the
  launch of the game.
* A form body is kept as the list of query items added to the `QUrlQuery`; the
  percent-encoding that `QUrlQuery` applies to keys and values, and the text
  that `QUrlQuery::toString` makes of the items, are not modelled.
* `startGame` appears in a trace as an event with its two arguments; the
  process it configures is the function `startGame`, with `FILES_PATH`,
  `ENGINE_FILENAME` (from `globaldefines.h`) and the system environment as
  parameters.
* The one-shot timer is the field `timer`; `exec` is the application's event
  loop, which fires an active timer by calling the slot `timerFinished`.
* Recursion between `authenticationLoop` and `startTwoFactorAuthentication`
  and the firing of timers are bounded by a `fuel` argument.  Calls nest three
  deep at most (`authenticationLoop`, `startTwoFactorAuthentication`,
  `authenticationLoop`), so three is enough for them
  (`authenticationLoop_fuel`), and every firing of the timer consumes a reply;
  `fuel_enough` shows that the bounds chosen by `login` are never reached.
* For the properties of whole runs, a run is also described as a sequence of
  exchanges (`Step`, `Reach`); `login_reach` proves that every run of `login`
  is such a sequence, and `Reach.invariant` carries a property along it.
-/

namespace LoginWorker

/-! ## Qt values -/

/-- A JSON value as `QJsonValue` sees it: its type tag and payload. -/
inductive QJsonValue where
  | null
  | bool (b : Bool)
  | double (d : Int)
  | string (s : String)
  | array (items : List QJsonValue)
  | object (members : List (String × QJsonValue))
  | undefined

/-- A JSON object: its members, looked up by key. -/
abbrev QJsonObject := List (String × QJsonValue)

/-- The result of `QJsonDocument::fromJson`: a null document when the bytes do
not parse, otherwise the top-level array or object. -/
inductive QJsonDocument where
  | null
  | ofArray (items : List QJsonValue)
  | ofObject (members : QJsonObject)

/-- Raw bytes (`QByteArray`) of a response body. -/
abbrev QByteArray := String

/-- The items of a `QUrlQuery`, in insertion order. -/
abbrev QUrlQuery := List (String × String)

/-- `QJsonValue::toString()`: the string of a string value, a null (empty)
string for a value of any other type. -/
def QJsonValue.toString : QJsonValue → String
  | .string s => s
  | _ => ""

/-- `QJsonDocument::object()`: the object the document holds, the empty object
when the document is null or holds an array. -/
def QJsonDocument.object : QJsonDocument → QJsonObject
  | .ofObject members => members
  | _ => []

/-- `QJsonObject::value(key)`, the value read by `jsonObject[key]`: the member
stored under `key`, `undefined` when there is none.  (The non-const
`operator[]` also stores a null member under an absent key; such a member reads
back as the empty string, exactly as the absent one does.) -/
def QJsonObject.value (obj : QJsonObject) (key : String) : QJsonValue :=
  match obj.find? (fun m => m.1 = key) with
  | some m => m.2
  | none => .undefined

/-- `QJsonObject::contains(key)`: is there a member stored under `key`? -/
def QJsonObject.contains (obj : QJsonObject) (key : String) : Bool :=
  (obj.find? (fun m => m.1 = key)).isSome

/-- The expression `jsonObject[key].toString()`. -/
def QJsonObject.str (obj : QJsonObject) (key : String) : String :=
  (QJsonObject.value obj key).toString

/-- `QUrlQuery::addQueryItem(key, value)`: appends one item. -/
def QUrlQuery.addQueryItem (q : QUrlQuery) (key value : String) : QUrlQuery :=
  q ++ [(key, value)]

/-! ## Observable events and the worker's state -/

/-- The form body handed to `loginApiWorker`: `postData` holds the text of the
query items appended to it, kept here as the items themselves. -/
abbrev PostData := List (String × String)

/-- What the worker does that is visible outside it. -/
inductive Event where
  /-- The signal `sendMessage(QString)`. -/
  | sendMessage (text : String)
  /-- The signal `authenticationFailed()`. -/
  | authenticationFailed
  /-- A line written with `QLOG_INFO()` or `QLOG_DEBUG()`: the streamed items. -/
  | log (items : List String)
  /-- A call of `loginApiWorker(postData)`: one HTTP POST. -/
  | post (postData : PostData)
  /-- A `TwoFactorWindow` constructed with the banner and shown. -/
  | prompt (banner : String)
  /-- The call `timer->start(msec)`. -/
  | timerStart (msec : Nat)
  /-- The call `startGame(cookie, gameServer)`. -/
  | startGame (cookie gameServer : String)
  /-- The signal `gameStarted()`. -/
  | gameStarted
  /-- The signal `gameFinished()`; it has no argument. -/
  | gameFinished
  deriving DecidableEq, Repr

end LoginWorker

/-- The member variables of `LoginWorker` that the protocol uses, with the
scripted environment (`replies`, `tokens`) and the trace of events so far. -/
structure LoginWorker where
  jsonObject : LoginWorker.QJsonObject := []
  authToken : String := ""
  lineToken : String := ""
  receivedToken : String := ""
  /-- The single-shot `timer`: `some msec` while it is active. -/
  timer : Option Nat := none
  /-- Raw bodies the Transport will return, in order. -/
  replies : List LoginWorker.QByteArray := []
  /-- Tokens the two-factor window will send, in order. -/
  tokens : List String := []
  trace : List LoginWorker.Event := []

namespace LoginWorker

/-- Appends one event to the trace. -/
def emit (s : LoginWorker) (e : Event) : LoginWorker :=
  { s with trace := s.trace ++ [e] }

/-- How a call of one of the worker's functions ends. -/
inductive Outcome where
  /-- The call returned to its caller. -/
  | returned (s : LoginWorker)
  /-- The call sits in `waitForFinished.exec()`: the reply or the token it
  waits for never comes. -/
  | waiting (s : LoginWorker)
  /-- The bound on nested calls or timer firings was reached. -/
  | outOfFuel (s : LoginWorker)

/-- The state an outcome carries. -/
def Outcome.state : Outcome → LoginWorker
  | .returned s => s
  | .waiting s => s
  | .outOfFuel s => s

/-- Did the call stop at the bound on nested calls or timer firings? -/
def Outcome.isOutOfFuel : Outcome → Bool
  | .outOfFuel _ => true
  | _ => false

/-- Did the call return? -/
def Outcome.isReturned : Outcome → Bool
  | .returned _ => true
  | _ => false

/-- How the `while` loop of `startTwoFactorAuthentication` ends. -/
inductive LoopExit where
  /-- The loop condition failed: control reaches the code after the loop. -/
  | exited (s : LoginWorker)
  /-- The `return` inside the loop, taken on the token "cancel". -/
  | cancelled (s : LoginWorker)
  /-- Stuck waiting for a token or a reply. -/
  | waiting (s : LoginWorker)

/-- The state a loop exit carries. -/
def LoopExit.state : LoopExit → LoginWorker
  | .exited s => s
  | .cancelled s => s
  | .waiting s => s

/-- Was the loop left through its condition? -/
def LoopExit.isExited : LoopExit → Bool
  | .exited _ => true
  | _ => false

/-! ## The functions of `loginworker.cpp` -/

/-- `LoginWorker::loginApiWorker(postData)`: posts the form body and blocks
until the reply is finished, then returns what `reply->readAll()` gives (the
empty body after a transport failure).  `none`: no reply ever finishes. -/
def loginApiWorker (s : LoginWorker) (postData : PostData) :
    LoginWorker × Option QByteArray :=
  let s := s.emit (.post postData)
  match s.replies with
  | [] => (s, none)
  | apiReply :: rest => ({ s with replies := rest }, some apiReply)

/-- The `while` loop of `startTwoFactorAuthentication` (lines 156-191), with its
local variables `postData` and `postParameters`.  It recurses on the tokens the
window still has to send. -/
def twoFactorWhile (fromJson : QByteArray → QJsonDocument) :
    List String → LoginWorker → PostData → QUrlQuery → LoopExit
  | toks, s, postData, postParameters =>
    if s.jsonObject.str "success" = "partial" then
      let s := s.emit (.sendMessage (s.jsonObject.str "banner"))
      let s := s.emit (.log ["Partial authentication: starting 2 factor authentication."])
      let s := s.emit (.prompt (s.jsonObject.str "banner"))
      -- waitForFinished.exec(): wait for receiveToken(token)
      match toks with
      | [] => .waiting s
      | token :: rest =>
        let s := { s with receivedToken := token, tokens := rest }
        if s.receivedToken = "cancel" then
          let s := s.emit (.sendMessage "Cancelling login.")
          let s := s.emit (.log ["Cancelling two factor authentication\n"])
          .cancelled s
        else
          let postParameters := postParameters.addQueryItem "appToken" s.receivedToken
          let postParameters := postParameters.addQueryItem "authToken" s.authToken
          let postData := postData ++ postParameters
          match loginApiWorker s postData with
          | (s, none) => .waiting s
          | (s, some replyData) =>
            let postData : PostData := []
            let postParameters : QUrlQuery := []
            let s := { s with jsonObject := (fromJson replyData).object }
            twoFactorWhile fromJson rest s postData postParameters
    else
      .exited s

mutual

/-- `LoginWorker::authenticationLoop()`. -/
def authenticationLoop (fromJson : QByteArray → QJsonDocument) :
    Nat → LoginWorker → Outcome
  | 0, s => .outOfFuel s
  | fuel + 1, s =>
    if s.jsonObject.str "success" = "false" then
      let s := s.emit (.sendMessage (s.jsonObject.str "banner"))
      let s := s.emit (.log ["Login failed:", s.jsonObject.str "banner"])
      let s := s.emit .authenticationFailed
      .returned s
    else if s.jsonObject.str "success" = "partial" then
      let s := { s with authToken := s.jsonObject.str "responseToken" }
      startTwoFactorAuthentication fromJson fuel s
    else if s.jsonObject.str "success" = "delayed" then
      let s := s.emit (.log ["Waiting in queue. ETA:", s.jsonObject.str "eta",
        ", Position in line:", s.jsonObject.str "position"])
      let s := s.emit (.sendMessage ("Waiting in queue. ETA: " ++ s.jsonObject.str "eta"
        ++ ", Position in line: " ++ s.jsonObject.str "position"))
      let s := { s with lineToken := s.jsonObject.str "queueToken" }
      let s := { s.emit (.timerStart 500) with timer := some 500 }
      .returned s
    else if s.jsonObject.str "success" = "true" then
      let playCookie := s.jsonObject.str "cookie"
      let gameServer := s.jsonObject.str "gameserver"
      let s := s.emit (.log ["Authenticated fully and starting game!"])
      let s := s.emit (.log ["Play cookie:", playCookie, "Game server:", gameServer])
      let s := s.emit (.sendMessage "Authentication complete. Starting game now.")
      let s := s.emit (.startGame playCookie gameServer)
      .returned s
    else
      let s := s.emit (.log ["Unable to authenticate.  Error:", s.jsonObject.str "banner"])
      let s := s.emit (.sendMessage (s.jsonObject.str "banner"))
      let s := s.emit .authenticationFailed
      .returned s

/-- `LoginWorker::startTwoFactorAuthentication()`. -/
def startTwoFactorAuthentication (fromJson : QByteArray → QJsonDocument) :
    Nat → LoginWorker → Outcome
  | 0, s => .outOfFuel s
  | fuel + 1, s =>
    match twoFactorWhile fromJson s.tokens s [] [] with
    | .cancelled s => .returned s
    | .waiting s => .waiting s
    | .exited s =>
      let s :=
        if s.jsonObject.str "success" ≠ "false" then
          s.emit (.log ["Two Factor authentication complete"])
        else s
      authenticationLoop fromJson fuel s

end

/-- `LoginWorker::timerFinished()`, the slot connected to the timer. -/
def timerFinished (fromJson : QByteArray → QJsonDocument) (fuel : Nat)
    (s : LoginWorker) : Outcome :=
  let s := s.emit (.log ["Queued authentication: checking where we stand in line again."])
  let postData : PostData := []
  let postParameters : QUrlQuery := []
  let postParameters := postParameters.addQueryItem "queueToken" s.lineToken
  let postData := postData ++ postParameters
  match loginApiWorker s postData with
  | (s, none) => .waiting s
  | (s, some replyData) =>
    let s := { s with jsonObject := (fromJson replyData).object }
    authenticationLoop fromJson fuel s

/-- `LoginWorker::initiateLogin(username, password)`. -/
def initiateLogin (fromJson : QByteArray → QJsonDocument) (fuel : Nat)
    (s : LoginWorker) (username password : String) : Outcome :=
  let s := s.emit (.sendMessage "Sending credentials to the TTR Servers")
  let postData : PostData := []
  let postParameters : QUrlQuery := []
  let postParameters := postParameters.addQueryItem "username" username
  let postParameters := postParameters.addQueryItem "password" password
  let postData := postData ++ postParameters
  match loginApiWorker s postData with
  | (s, none) => .waiting s
  | (s, some replyData) =>
    let s := { s with jsonObject := (fromJson replyData).object }
    authenticationLoop fromJson fuel s

/-- The application's event loop after a slot has returned: while the one-shot
timer is active it fires (the timer becomes inactive and `timerFinished` runs);
with no active timer nothing is left to happen. -/
def exec (fromJson : QByteArray → QJsonDocument) : Nat → LoginWorker → Outcome
  | 0, s =>
    match s.timer with
    | none => .returned s
    | some _ => .outOfFuel s
  | fuel + 1, s =>
    match s.timer with
    | none => .returned s
    | some _ =>
      match timerFinished fromJson 3 { s with timer := none } with
      | .returned s => exec fromJson fuel s
      | other => other

/-- One protocol run: a fresh worker, `initiateLogin`, then the event loop
until nothing is pending. -/
def login (fromJson : QByteArray → QJsonDocument) (replies : List QByteArray)
    (tokens : List String) (username password : String) : Outcome :=
  match initiateLogin fromJson 3 { replies := replies, tokens := tokens } username password with
  | .returned s => exec fromJson replies.length s
  | other => other

/-! ## The launch of the game -/

/-- A `QProcessEnvironment`: the variables with their values, one entry for
each name.  Names are compared exactly, as they are on every platform but
Windows. -/
abbrev QProcessEnvironment := List (String × String)

/-- `QProcessEnvironment::contains(name)`. -/
def QProcessEnvironment.contains (env : QProcessEnvironment) (name : String) : Bool :=
  (env.find? (fun v => v.1 = name)).isSome

/-- `QProcessEnvironment::value(name)`, with `none` for a variable that is not
set. -/
def QProcessEnvironment.value (env : QProcessEnvironment) (name : String) : Option String :=
  (env.find? (fun v => v.1 = name)).map (fun v => v.2)

/-- `QProcessEnvironment::insert(name, value)`: sets the variable, replacing
the value it had if it existed. -/
def QProcessEnvironment.insert (env : QProcessEnvironment) (name value : String) :
    QProcessEnvironment :=
  (name, value) :: env.filter (fun v => ¬ v.1 = name)

/-- What `startGame` sets up on `gameProcess` before and when it starts it. -/
structure QProcess where
  workingDirectory : String
  processEnvironment : QProcessEnvironment
  /-- The program given to `start`. -/
  program : String
  /-- The bound given to `waitForStarted`, in milliseconds. -/
  waitForStarted : Nat

/-- `LoginWorker::startGame(cookie, gameServer)`: the process it configures and
starts.  `FILES_PATH` and `ENGINE_FILENAME` come from `globaldefines.h` and the
system environment from the operating system; all three are parameters. -/
def startGame (FILES_PATH ENGINE_FILENAME : String) (systemEnvironment : QProcessEnvironment)
    (cookie gameServer : String) : QProcess :=
  let engineFile := FILES_PATH ++ ENGINE_FILENAME
  let gamePath := FILES_PATH
  let gameEnvironment := systemEnvironment
  let gameEnvironment := gameEnvironment.insert "TTR_PLAYCOOKIE" cookie
  let gameEnvironment := gameEnvironment.insert "TTR_GAMESERVER" gameServer
  { workingDirectory := gamePath
    processEnvironment := gameEnvironment
    program := engineFile
    waitForStarted := 30000 }

/-- `LoginWorker::gameHasStarted()`, the slot connected to the signal
`started()` of the game process. -/
def gameHasStarted (s : LoginWorker) : LoginWorker :=
  s.emit .gameStarted

/-- `LoginWorker::gameHasFinished(int)`, the slot connected to the signal
`finished(int)` of the game process; its parameter, the exit code, has no name
and is not used. -/
def gameHasFinished (s : LoginWorker) (_exitCode : Int) : LoginWorker :=
  s.emit .gameFinished

/-! ## The status variants of the specification -/

/-- The five variants of `LoginStatus` named by the specification. -/
inductive LoginStatus where
  | rejected
  | partialTwoFactor
  | delayed
  | success
  | unknown
  deriving DecidableEq, Repr

/-- The variant as the specification words it: the string value of the
`success` field decides, "false", "partial", "delayed" and "true" naming a
variant each and every other value being unknown. -/
def specStatus (success : String) : LoginStatus :=
  if success = "false" then .rejected
  else if success = "partial" then .partialTwoFactor
  else if success = "delayed" then .delayed
  else if success = "true" then .success
  else .unknown

/-! ## Counting events -/

/-- Is the event a Transport call? -/
def Event.isPost : Event → Bool
  | .post _ => true
  | _ => false

/-- Is the event a launch of the game? -/
def Event.isStartGame : Event → Bool
  | .startGame _ _ => true
  | _ => false

/-- Is the event the signal `authenticationFailed`? -/
def Event.isAuthenticationFailed : Event → Bool
  | .authenticationFailed => true
  | _ => false

/-- Is the event a start of the timer? -/
def Event.isTimerStart : Event → Bool
  | .timerStart _ => true
  | _ => false

/-- Is the event a two-factor prompt? -/
def Event.isPrompt : Event → Bool
  | .prompt _ => true
  | _ => false

/-- The form bodies of the Transport calls of a trace, in order. -/
def posts : List Event → List PostData
  | [] => []
  | .post d :: es => d :: posts es
  | _ :: es => posts es

/-- The texts of the `sendMessage` signals of a trace, in order. -/
def messages : List Event → List String
  | [] => []
  | .sendMessage t :: es => t :: messages es
  | _ :: es => messages es

/-- State `t` comes after state `s`: the trace of `t` is the trace of `s` with
events added at the end, and the replies left in `t` are what is left of the
replies of `s` once some of them are consumed. -/
def Follows (s t : LoginWorker) : Prop :=
  (∃ evs : List Event, t.trace = s.trace ++ evs) ∧
  (∃ used : List QByteArray, s.replies = used ++ t.replies)

/-- The events of one turn in the queue: what `authenticationLoop` does with a
delayed response, then what `timerFinished` does up to its request. -/
def queueRound (obj : QJsonObject) : List Event :=
  [.log ["Waiting in queue. ETA:", obj.str "eta", ", Position in line:", obj.str "position"],
   .sendMessage ("Waiting in queue. ETA: " ++ obj.str "eta" ++ ", Position in line: "
     ++ obj.str "position"),
   .timerStart 500,
   .log ["Queued authentication: checking where we stand in line again."],
   .post [("queueToken", obj.str "queueToken")]]

/-- The events of the turns in the queue for a list of delayed bodies. -/
def queueTrace (fromJson : QByteArray → QJsonDocument) : List QByteArray → List Event
  | [] => []
  | b :: bs => queueRound (fromJson b).object ++ queueTrace fromJson bs

/-- The events of the branch of `authenticationLoop` that starts the game. -/
def launchEvents (obj : QJsonObject) : List Event :=
  [.log ["Authenticated fully and starting game!"],
   .log ["Play cookie:", obj.str "cookie", "Game server:", obj.str "gameserver"],
   .sendMessage "Authentication complete. Starting game now.",
   .startGame (obj.str "cookie") (obj.str "gameserver")]

/-- The events of the last branch of `authenticationLoop`, taken when the
status is none of the four it knows. -/
def unknownEvents (obj : QJsonObject) : List Event :=
  [.log ["Unable to authenticate.  Error:", obj.str "banner"],
   .sendMessage (obj.str "banner"),
   .authenticationFailed]

/-! ## The run as a sequence of exchanges

Between two exchanges with the server or the user a run stands at one of four
places.  `Step` lists what one exchange does from each of them; `login_reach`
shows that every run of `login` is a sequence of such steps. -/

/-- The events by which `authenticationLoop` answers a status other than
"partial". -/
def directEvents (obj : QJsonObject) : List Event :=
  if obj.str "success" = "false" then
    [.sendMessage (obj.str "banner"),
     .log ["Login failed:", obj.str "banner"],
     .authenticationFailed]
  else if obj.str "success" = "delayed" then
    [.log ["Waiting in queue. ETA:", obj.str "eta", ", Position in line:", obj.str "position"],
     .sendMessage ("Waiting in queue. ETA: " ++ obj.str "eta" ++ ", Position in line: "
       ++ obj.str "position"),
     .timerStart 500]
  else if obj.str "success" = "true" then launchEvents obj
  else unknownEvents obj

/-- The state in which `authenticationLoop` returns on a status other than
"partial". -/
def direct (x : LoginWorker) : LoginWorker :=
  if x.jsonObject.str "success" = "delayed" then
    { x with
      lineToken := x.jsonObject.str "queueToken"
      timer := some 500
      trace := x.trace ++ directEvents x.jsonObject }
  else
    { x with trace := x.trace ++ directEvents x.jsonObject }

/-- The events with which an iteration of the two-factor loop begins. -/
def promptEvents (obj : QJsonObject) : List Event :=
  [.sendMessage (obj.str "banner"),
   .log ["Partial authentication: starting 2 factor authentication."],
   .prompt (obj.str "banner")]

/-- The events of an iteration of the two-factor loop that is given `token`. -/
def retryEvents (s : LoginWorker) (token : String) : List Event :=
  promptEvents s.jsonObject ++ [.post [("appToken", token), ("authToken", s.authToken)]]

/-- The events of an iteration of the two-factor loop that is given "cancel". -/
def cancelEvents (obj : QJsonObject) : List Event :=
  promptEvents obj ++
    [.sendMessage "Cancelling login.", .log ["Cancelling two factor authentication\n"]]

/-- The events of `timerFinished` up to its request. -/
def pollEvents (s : LoginWorker) : List Event :=
  [.log ["Queued authentication: checking where we stand in line again."],
   .post [("queueToken", s.lineToken)]]

/-- The events of `initiateLogin` up to its request. -/
def loginEvents (username password : String) : List Event :=
  [.sendMessage "Sending credentials to the TTR Servers",
   .post [("username", username), ("password", password)]]

/-- The state after the loop of `startTwoFactorAuthentication`: its last log
line is written unless the status is "false". -/
def completed (x : LoginWorker) : LoginWorker :=
  if x.jsonObject.str "success" ≠ "false" then
    x.emit (.log ["Two Factor authentication complete"])
  else x

/-- Where a run stands between two exchanges. -/
inductive Config where
  /-- The slot `initiateLogin` is about to run. -/
  | start (s : LoginWorker) (username password : String)
  /-- Control is at the head of the two-factor loop. -/
  | head (s : LoginWorker)
  /-- Control is back in the event loop. -/
  | idle (s : LoginWorker)
  /-- Control waits for a reply or a token that never comes. -/
  | stuck (s : LoginWorker)

/-- The state of the worker at a place. -/
def Config.state : Config → LoginWorker
  | .start s _ _ => s
  | .head s => s
  | .idle s => s
  | .stuck s => s

/-- The place at which a call that was made from the event loop ends. -/
def cfg : Outcome → Config
  | .returned t => .idle t
  | .waiting t => .stuck t
  | .outOfFuel t => .stuck t

/-- One exchange: from the start or from an active timer the request of the
slot, from the head of the two-factor loop one iteration; each with what the
reply, if any, leads to. -/
inductive Step (fromJson : QByteArray → QJsonDocument) : Config → Config → Prop where
  | startNoReply (s : LoginWorker) (username password : String) :
    s.replies = [] →
    Step fromJson (.start s username password)
      (.stuck { s with trace := s.trace ++ loginEvents username password })
  | startDirect (s : LoginWorker) (username password : String) (body : QByteArray)
      (more : List QByteArray) :
    s.replies = body :: more → (fromJson body).object.str "success" ≠ "partial" →
    Step fromJson (.start s username password)
      (.idle (direct { s with
        jsonObject := (fromJson body).object
        replies := more
        trace := s.trace ++ loginEvents username password }))
  | startTwoFactor (s : LoginWorker) (username password : String) (body : QByteArray)
      (more : List QByteArray) :
    s.replies = body :: more → (fromJson body).object.str "success" = "partial" →
    Step fromJson (.start s username password)
      (.head { s with
        jsonObject := (fromJson body).object
        authToken := (fromJson body).object.str "responseToken"
        replies := more
        trace := s.trace ++ loginEvents username password })
  | fireNoReply (s : LoginWorker) (m : Nat) :
    s.timer = some m → s.replies = [] →
    Step fromJson (.idle s) (.stuck { s with timer := none, trace := s.trace ++ pollEvents s })
  | fireDirect (s : LoginWorker) (m : Nat) (body : QByteArray) (more : List QByteArray) :
    s.timer = some m → s.replies = body :: more →
    (fromJson body).object.str "success" ≠ "partial" →
    Step fromJson (.idle s)
      (.idle (direct { s with
        timer := none
        jsonObject := (fromJson body).object
        replies := more
        trace := s.trace ++ pollEvents s }))
  | fireTwoFactor (s : LoginWorker) (m : Nat) (body : QByteArray) (more : List QByteArray) :
    s.timer = some m → s.replies = body :: more →
    (fromJson body).object.str "success" = "partial" →
    Step fromJson (.idle s)
      (.head { s with
        timer := none
        jsonObject := (fromJson body).object
        authToken := (fromJson body).object.str "responseToken"
        replies := more
        trace := s.trace ++ pollEvents s })
  | headNoToken (s : LoginWorker) :
    s.tokens = [] →
    Step fromJson (.head s) (.stuck { s with trace := s.trace ++ promptEvents s.jsonObject })
  | headCancel (s : LoginWorker) (rest : List String) :
    s.tokens = "cancel" :: rest →
    Step fromJson (.head s)
      (.idle { s with
        receivedToken := "cancel"
        tokens := rest
        trace := s.trace ++ cancelEvents s.jsonObject })
  | headNoReply (s : LoginWorker) (token : String) (rest : List String) :
    s.tokens = token :: rest → token ≠ "cancel" → s.replies = [] →
    Step fromJson (.head s)
      (.stuck { s with
        receivedToken := token
        tokens := rest
        trace := s.trace ++ retryEvents s token })
  | headAgain (s : LoginWorker) (token : String) (rest : List String) (body : QByteArray)
      (more : List QByteArray) :
    s.tokens = token :: rest → token ≠ "cancel" → s.replies = body :: more →
    (fromJson body).object.str "success" = "partial" →
    Step fromJson (.head s)
      (.head { s with
        jsonObject := (fromJson body).object
        receivedToken := token
        tokens := rest
        replies := more
        trace := s.trace ++ retryEvents s token })
  | headDirect (s : LoginWorker) (token : String) (rest : List String) (body : QByteArray)
      (more : List QByteArray) :
    s.tokens = token :: rest → token ≠ "cancel" → s.replies = body :: more →
    (fromJson body).object.str "success" ≠ "partial" →
    Step fromJson (.head s)
      (.idle (direct (completed { s with
        jsonObject := (fromJson body).object
        receivedToken := token
        tokens := rest
        replies := more
        trace := s.trace ++ retryEvents s token })))

/-- A sequence of exchanges. -/
def Reach (fromJson : QByteArray → QJsonDocument) : Config → Config → Prop :=
  Relation.ReflTransGen (Step fromJson)

/-- Is the event a two-factor retry, a request whose first field is
`appToken`? -/
def Event.isRetry : Event → Bool
  | .post ((key, _) :: _) => decide (key = "appToken")
  | _ => false

/-- Every two-factor retry of the trace comes right after a prompt; `prev`
tells whether the event before the trace is a prompt. -/
def retriesPromptedAfter : Bool → List Event → Bool
  | _, [] => true
  | prev, e :: es => (!e.isRetry || prev) && retriesPromptedAfter e.isPrompt es

/-- Every two-factor retry of the trace comes right after a prompt. -/
def retriesPrompted (tr : List Event) : Bool :=
  retriesPromptedAfter false tr

/-- The requests a place still owes: the credentials at the start, the re-poll
while the timer is active. -/
def owed : Config → Nat
  | .start _ _ _ => 1
  | .idle s => if s.timer.isSome then 1 else 0
  | _ => 0

/-- Is the body a delayed response? -/
def isDelayedBody (fromJson : QByteArray → QJsonDocument) (b : QByteArray) : Bool :=
  decide ((fromJson b).object.str "success" = "delayed")

/-- Is the token something else than "cancel"? -/
def isNonCancel (token : String) : Bool :=
  decide (token ≠ "cancel")

/-- The count of the requests of a run, at a place: the replies and tokens
consumed so far are a beginning of the script, and the requests made and owed
are one, plus one for each delayed response consumed, plus one for each token
other than "cancel" consumed.  No timer is active at the start and inside the
two-factor loop. -/
def Counted (fromJson : QByteArray → QJsonDocument) (replies : List QByteArray)
    (tokens : List String) (c : Config) : Prop :=
  (∃ (usedReplies : List QByteArray) (usedTokens : List String),
    replies = usedReplies ++ c.state.replies ∧
    tokens = usedTokens ++ c.state.tokens ∧
    (posts c.state.trace).length + owed c =
      1 + usedReplies.countP (isDelayedBody fromJson) + usedTokens.countP isNonCancel) ∧
  match c with
  | .start s _ _ => s.timer = none
  | .head s => s.timer = none
  | _ => True

/-- A trace in which the game was not started and no failure was signalled. -/
def Clean (tr : List Event) : Prop :=
  tr.countP Event.isStartGame = 0 ∧ tr.countP Event.isAuthenticationFailed = 0

/-- The run ended with the launch of the game: `startGame` is the last event
and the only launch, no failure was signalled, and the response decoded last
has the status "true". -/
def EndsLaunched (s : LoginWorker) : Prop :=
  (∃ (pre : List Event) (cookie gameServer : String),
    s.trace = pre ++ [.startGame cookie gameServer]) ∧
  s.trace.countP Event.isStartGame = 1 ∧
  s.trace.countP Event.isAuthenticationFailed = 0 ∧
  s.jsonObject.str "success" = "true"

/-- The run ended in failure: `authenticationFailed` is the last event and is
signalled once, and the game was not started. -/
def EndsFailed (s : LoginWorker) : Prop :=
  (∃ pre : List Event, s.trace = pre ++ [.authenticationFailed]) ∧
  s.trace.countP Event.isAuthenticationFailed = 1 ∧
  s.trace.countP Event.isStartGame = 0

/-- The run was cancelled: the cancel message and its log line are the last
events, the game was not started and no failure was signalled. -/
def EndsCancelled (s : LoginWorker) : Prop :=
  (∃ pre : List Event, s.trace = pre ++
    [.sendMessage "Cancelling login.", .log ["Cancelling two factor authentication\n"]]) ∧
  s.trace.countP Event.isStartGame = 0 ∧
  s.trace.countP Event.isAuthenticationFailed = 0

/-- How far a run has come, at a place: nothing has happened at the start; the
trace is clean inside the two-factor loop, while the timer is active and where
the run waits; and once control is back in the event loop with no timer
active, the run has ended in one of the three ways. -/
def Settled : Config → Prop
  | .start s _ _ => s.trace = [] ∧ s.timer = none
  | .head s => Clean s.trace ∧ s.timer = none
  | .idle s =>
    (s.timer ≠ none ∧ Clean s.trace) ∨
    (s.timer = none ∧ (EndsLaunched s ∨ EndsFailed s ∨ EndsCancelled s))
  | .stuck s => Clean s.trace

/-! ## The tokens a worker holds after the replies it has consumed -/

/-- The state with `pre` put before its trace. -/
def prepend (pre : List Event) (s : LoginWorker) : LoginWorker :=
  { s with trace := pre ++ s.trace }

/-- The outcome with its state changed by `f`. -/
def Outcome.map (f : LoginWorker → LoginWorker) : Outcome → Outcome
  | .returned s => .returned (f s)
  | .waiting s => .waiting (f s)
  | .outOfFuel s => .outOfFuel (f s)

/-- The loop exit with its state changed by `f`. -/
def LoopExit.map (f : LoginWorker → LoginWorker) : LoopExit → LoopExit
  | .exited s => .exited (f s)
  | .cancelled s => .cancelled (f s)
  | .waiting s => .waiting (f s)

/-- What a run does after the credentials request, recorded in a trace that
starts empty: it waits if there is no reply, and otherwise decodes the first
reply, dispatches on it and runs the event loop.  The credentials are not among
its arguments. -/
def afterLogin (fromJson : QByteArray → QJsonDocument) (replies : List QByteArray)
    (tokens : List String) : Outcome :=
  match replies with
  | [] => .waiting { tokens := tokens }
  | body :: more =>
    match authenticationLoop fromJson 3
      { jsonObject := (fromJson body).object, replies := more, tokens := tokens } with
    | .returned t => exec fromJson (body :: more).length t
    | other => other

/-! ## Sample bodies

Concrete response bodies for the examples, and the documents a JSON parser
makes of them. -/

def bodySuccess : QByteArray :=
  "\x7b\"success\":\"true\",\"cookie\":\"C1\",\"gameserver\":\"G1\"\x7d"

def bodySuccessXY : QByteArray :=
  "\x7b\"success\":\"true\",\"cookie\":\"X\",\"gameserver\":\"Y\"\x7d"

def bodyPartialA1 : QByteArray :=
  "\x7b\"success\":\"partial\",\"banner\":\"Enter token\",\"responseToken\":\"A1\"\x7d"

def bodyPartialA2 : QByteArray :=
  "\x7b\"success\":\"partial\",\"banner\":\"Try again\",\"responseToken\":\"A2\"\x7d"

def bodyFalseNope : QByteArray :=
  "\x7b\"success\":\"false\",\"banner\":\"nope\"\x7d"

def bodyDelayedQ1 : QByteArray :=
  "\x7b\"success\":\"delayed\",\"eta\":\"5\",\"position\":\"10\",\"queueToken\":\"Q1\"\x7d"

def bodyDelayedQ2 : QByteArray :=
  "\x7b\"success\":\"delayed\",\"eta\":\"2\",\"position\":\"3\",\"queueToken\":\"Q2\"\x7d"

def bodyBannerOnly : QByteArray :=
  "\x7b\"banner\":\"x\"\x7d"

def bodyBoolSuccess : QByteArray :=
  "\x7b\"success\":true,\"cookie\":\"C1\",\"gameserver\":\"G1\"\x7d"

def bodyCapitalTrue : QByteArray :=
  "\x7b\"success\":\"True\",\"cookie\":\"C1\",\"gameserver\":\"G1\"\x7d"

def bodyArray : QByteArray := "[1]"

/-- An instance of `fromJson` for the examples: it parses the sample bodies
above as a JSON parser does, and answers the null document for everything else
(as a parser does for the empty body and for text that is not JSON). -/
def sampleFromJson (body : QByteArray) : QJsonDocument :=
  if body = bodySuccess then
    .ofObject [("success", .string "true"), ("cookie", .string "C1"), ("gameserver", .string "G1")]
  else if body = bodySuccessXY then
    .ofObject [("success", .string "true"), ("cookie", .string "X"), ("gameserver", .string "Y")]
  else if body = bodyPartialA1 then
    .ofObject [("success", .string "partial"), ("banner", .string "Enter token"),
      ("responseToken", .string "A1")]
  else if body = bodyPartialA2 then
    .ofObject [("success", .string "partial"), ("banner", .string "Try again"),
      ("responseToken", .string "A2")]
  else if body = bodyFalseNope then
    .ofObject [("success", .string "false"), ("banner", .string "nope")]
  else if body = bodyDelayedQ1 then
    .ofObject [("success", .string "delayed"), ("eta", .string "5"), ("position", .string "10"),
      ("queueToken", .string "Q1")]
  else if body = bodyDelayedQ2 then
    .ofObject [("success", .string "delayed"), ("eta", .string "2"), ("position", .string "3"),
      ("queueToken", .string "Q2")]
  else if body = bodyBannerOnly then
    .ofObject [("banner", .string "x")]
  else if body = bodyBoolSuccess then
    .ofObject [("success", .bool true), ("cookie", .string "C1"), ("gameserver", .string "G1")]
  else if body = bodyCapitalTrue then
    .ofObject [("success", .string "True"), ("cookie", .string "C1"), ("gameserver", .string "G1")]
  else if body = bodyArray then
    .ofArray [.double 1]
  else
    .null

/-! ## Basic facts about the functions -/

variable (fromJson : QByteArray → QJsonDocument)

theorem exec_idle (n : Nat) (s : LoginWorker) (h : s.timer = none) :
    exec fromJson n s = .returned s := by
  cases n <;> simp [exec, h]

theorem authenticationLoop_rejected (fuel : Nat) (s : LoginWorker)
    (h : s.jsonObject.str "success" = "false") :
    authenticationLoop fromJson (fuel + 1) s = .returned { s with trace := s.trace ++
      [.sendMessage (s.jsonObject.str "banner"),
       .log ["Login failed:", s.jsonObject.str "banner"],
       .authenticationFailed] } := by
  simp [authenticationLoop, h, emit]

theorem authenticationLoop_twoFactor (fuel : Nat) (s : LoginWorker)
    (h : s.jsonObject.str "success" = "partial") :
    authenticationLoop fromJson (fuel + 1) s =
      startTwoFactorAuthentication fromJson fuel
        { s with authToken := s.jsonObject.str "responseToken" } := by
  simp [authenticationLoop, h]

theorem authenticationLoop_delayed (fuel : Nat) (s : LoginWorker)
    (h : s.jsonObject.str "success" = "delayed") :
    authenticationLoop fromJson (fuel + 1) s = .returned { s with
      lineToken := s.jsonObject.str "queueToken"
      timer := some 500
      trace := s.trace ++
        [.log ["Waiting in queue. ETA:", s.jsonObject.str "eta", ", Position in line:",
           s.jsonObject.str "position"],
         .sendMessage ("Waiting in queue. ETA: " ++ s.jsonObject.str "eta"
           ++ ", Position in line: " ++ s.jsonObject.str "position"),
         .timerStart 500] } := by
  simp [authenticationLoop, h, emit]

theorem authenticationLoop_success (fuel : Nat) (s : LoginWorker)
    (h : s.jsonObject.str "success" = "true") :
    authenticationLoop fromJson (fuel + 1) s = .returned { s with trace := s.trace ++
      [.log ["Authenticated fully and starting game!"],
       .log ["Play cookie:", s.jsonObject.str "cookie", "Game server:",
         s.jsonObject.str "gameserver"],
       .sendMessage "Authentication complete. Starting game now.",
       .startGame (s.jsonObject.str "cookie") (s.jsonObject.str "gameserver")] } := by
  simp [authenticationLoop, h, emit]

theorem authenticationLoop_unknown (fuel : Nat) (s : LoginWorker)
    (h1 : s.jsonObject.str "success" ≠ "false")
    (h2 : s.jsonObject.str "success" ≠ "partial")
    (h3 : s.jsonObject.str "success" ≠ "delayed")
    (h4 : s.jsonObject.str "success" ≠ "true") :
    authenticationLoop fromJson (fuel + 1) s = .returned { s with trace := s.trace ++
      [.log ["Unable to authenticate.  Error:", s.jsonObject.str "banner"],
       .sendMessage (s.jsonObject.str "banner"),
       .authenticationFailed] } := by
  simp [authenticationLoop, h1, h2, h3, h4, emit]

/-! ### One iteration of the two-factor loop -/

theorem twoFactorWhile_exit (toks : List String) (s : LoginWorker) (pd : PostData)
    (pp : QUrlQuery) (h : s.jsonObject.str "success" ≠ "partial") :
    twoFactorWhile fromJson toks s pd pp = .exited s := by
  unfold twoFactorWhile
  simp [h]

theorem twoFactorWhile_noToken (s : LoginWorker) (pd : PostData) (pp : QUrlQuery)
    (h : s.jsonObject.str "success" = "partial") :
    twoFactorWhile fromJson [] s pd pp = .waiting { s with trace := s.trace ++
      [.sendMessage (s.jsonObject.str "banner"),
       .log ["Partial authentication: starting 2 factor authentication."],
       .prompt (s.jsonObject.str "banner")] } := by
  unfold twoFactorWhile
  simp [h, emit]

theorem twoFactorWhile_cancel (rest : List String) (s : LoginWorker) (pd : PostData)
    (pp : QUrlQuery) (h : s.jsonObject.str "success" = "partial") :
    twoFactorWhile fromJson ("cancel" :: rest) s pd pp = .cancelled { s with
      receivedToken := "cancel"
      tokens := rest
      trace := s.trace ++
        [.sendMessage (s.jsonObject.str "banner"),
         .log ["Partial authentication: starting 2 factor authentication."],
         .prompt (s.jsonObject.str "banner"),
         .sendMessage "Cancelling login.",
         .log ["Cancelling two factor authentication\n"]] } := by
  unfold twoFactorWhile
  simp [h, emit]

theorem twoFactorWhile_noReply (token : String) (rest : List String) (s : LoginWorker)
    (h : s.jsonObject.str "success" = "partial") (hc : token ≠ "cancel")
    (hr : s.replies = []) :
    twoFactorWhile fromJson (token :: rest) s [] [] = .waiting { s with
      receivedToken := token
      tokens := rest
      trace := s.trace ++
        [.sendMessage (s.jsonObject.str "banner"),
         .log ["Partial authentication: starting 2 factor authentication."],
         .prompt (s.jsonObject.str "banner"),
         .post [("appToken", token), ("authToken", s.authToken)]] } := by
  unfold twoFactorWhile
  simp [h, hc, hr, emit, loginApiWorker, QUrlQuery.addQueryItem]

theorem twoFactorWhile_retry (token : String) (rest : List String) (s : LoginWorker)
    (body : QByteArray) (more : List QByteArray)
    (h : s.jsonObject.str "success" = "partial") (hc : token ≠ "cancel")
    (hr : s.replies = body :: more) :
    twoFactorWhile fromJson (token :: rest) s [] [] =
      twoFactorWhile fromJson rest { s with
        jsonObject := (fromJson body).object
        receivedToken := token
        tokens := rest
        replies := more
        trace := s.trace ++
          [.sendMessage (s.jsonObject.str "banner"),
           .log ["Partial authentication: starting 2 factor authentication."],
           .prompt (s.jsonObject.str "banner"),
           .post [("appToken", token), ("authToken", s.authToken)]] } [] [] := by
  conv_lhs => unfold twoFactorWhile
  simp [h, hc, hr, emit, loginApiWorker, QUrlQuery.addQueryItem]

/-! ### Objects without a `success` member -/

theorem QJsonObject.str_of_not_contains (obj : QJsonObject) (key : String)
    (h : QJsonObject.contains obj key = false) : QJsonObject.str obj key = "" := by
  unfold QJsonObject.contains at h
  unfold QJsonObject.str QJsonObject.value
  cases hf : obj.find? (fun m => m.1 = key) with
  | none => rfl
  | some m => simp [hf] at h

theorem QJsonDocument.object_of_not_object (doc : QJsonDocument)
    (h : ∀ members : QJsonObject, doc ≠ .ofObject members) : doc.object = [] := by
  cases doc with
  | null => rfl
  | ofArray items => rfl
  | ofObject members => exact absurd rfl (h members)

theorem sampleFromJson_empty : sampleFromJson "" = .null := by
  rfl

theorem sampleFromJson_empty_not_object (members : QJsonObject) :
    sampleFromJson "" ≠ .ofObject members := by
  rw [sampleFromJson_empty]
  intro h
  cases h

/-! ### Rounds of the two-factor loop -/

theorem posts_append (xs ys : List Event) : posts (xs ++ ys) = posts xs ++ posts ys := by
  induction xs with
  | nil => rfl
  | cons e es ih => cases e <;> simp [posts, ih]

theorem messages_append (xs ys : List Event) :
    messages (xs ++ ys) = messages xs ++ messages ys := by
  induction xs with
  | nil => rfl
  | cons e es ih => cases e <;> simp [messages, ih]

/-- Rounds that are answered by another "partial" response: for every token
of `pre` the loop prompts, posts the token with the stored `authToken` and
decodes the reply; nothing else happens, and `authToken` stays what it was. -/
theorem twoFactorWhile_rounds (pre : List String) :
    ∀ (bodies : List QByteArray) (s : LoginWorker) (rest : List String)
      (more : List QByteArray),
      pre.length = bodies.length →
      (∀ tok ∈ pre, tok ≠ "cancel") →
      (∀ b ∈ bodies, (fromJson b).object.str "success" = "partial") →
      s.jsonObject.str "success" = "partial" →
      s.tokens = pre ++ rest →
      s.replies = bodies ++ more →
      ∃ (t : LoginWorker) (evs : List Event),
        twoFactorWhile fromJson (pre ++ rest) s [] [] = twoFactorWhile fromJson rest t [] [] ∧
        t.jsonObject.str "success" = "partial" ∧
        t.tokens = rest ∧ t.replies = more ∧
        t.authToken = s.authToken ∧ t.lineToken = s.lineToken ∧ t.timer = s.timer ∧
        t.trace = s.trace ++ evs ∧
        posts evs = pre.map (fun tok => [("appToken", tok), ("authToken", s.authToken)]) ∧
        evs.countP Event.isPrompt = pre.length ∧
        evs.countP Event.isStartGame = 0 ∧
        evs.countP Event.isAuthenticationFailed = 0 ∧
        evs.countP Event.isTimerStart = 0 := by
  induction pre with
  | nil =>
    intro bodies s rest more hlen _ _ hs htok hrep
    have hb : bodies = [] := by
      cases bodies with
      | nil => rfl
      | cons b bs => simp at hlen
    subst hb
    exact ⟨s, [], rfl, hs, by simpa using htok, by simpa using hrep, rfl, rfl, rfl,
      by simp, rfl, rfl, rfl, rfl, rfl⟩
  | cons tok pre ih =>
    intro bodies s rest more hlen hpre hbodies hs htok hrep
    cases bodies with
    | nil => simp at hlen
    | cons b bs =>
      have hc : tok ≠ "cancel" := hpre tok (by simp)
      have hb : (fromJson b).object.str "success" = "partial" := hbodies b (by simp)
      obtain ⟨t, evs, h1, h2, h3, h4, h5, h6, h7, h8, h9, h10, h11, h12, h13⟩ :=
        ih bs { s with
          jsonObject := (fromJson b).object
          receivedToken := tok
          tokens := pre ++ rest
          replies := bs ++ more
          trace := s.trace ++
            [.sendMessage (s.jsonObject.str "banner"),
             .log ["Partial authentication: starting 2 factor authentication."],
             .prompt (s.jsonObject.str "banner"),
             .post [("appToken", tok), ("authToken", s.authToken)]] } rest more
          (by simpa using hlen) (fun x hx => hpre x (by simp [hx]))
          (fun x hx => hbodies x (by simp [hx])) hb rfl rfl
      refine ⟨t, [.sendMessage (s.jsonObject.str "banner"),
             .log ["Partial authentication: starting 2 factor authentication."],
             .prompt (s.jsonObject.str "banner"),
             .post [("appToken", tok), ("authToken", s.authToken)]] ++ evs,
        ?_, h2, h3, h4, h5, h6, h7, ?_, ?_, ?_, ?_, ?_, ?_⟩
      · rw [← h1]
        exact twoFactorWhile_retry fromJson tok (pre ++ rest) s b (bs ++ more) hs hc
          (by simpa using hrep)
      · rw [h8]
        simp
      · rw [posts_append, h9]
        simp [posts]
      · rw [List.countP_append, h10]
        simp [List.countP_cons, Event.isPrompt]
        omega
      · rw [List.countP_append, h11]
        simp [List.countP_cons, Event.isStartGame]
      · rw [List.countP_append, h12]
        simp [List.countP_cons, Event.isAuthenticationFailed]
      · rw [List.countP_append, h13]
        simp [List.countP_cons, Event.isTimerStart]

/-! ### Calls only add to the trace and only consume replies -/

theorem Follows.refl (s : LoginWorker) : Follows s s :=
  ⟨⟨[], by simp⟩, ⟨[], by simp⟩⟩

theorem Follows.trans {s t u : LoginWorker} (h1 : Follows s t) (h2 : Follows t u) :
    Follows s u := by
  obtain ⟨⟨e1, he1⟩, ⟨r1, hr1⟩⟩ := h1
  obtain ⟨⟨e2, he2⟩, ⟨r2, hr2⟩⟩ := h2
  exact ⟨⟨e1 ++ e2, by rw [he2, he1, List.append_assoc]⟩,
    ⟨r1 ++ r2, by rw [hr1, hr2, List.append_assoc]⟩⟩

theorem Follows.of_eq {s t : LoginWorker} (evs : List Event) (ht : t.trace = s.trace ++ evs)
    (hr : t.replies = s.replies) : Follows s t :=
  ⟨⟨evs, ht⟩, ⟨[], by simp [hr]⟩⟩

theorem Follows.length_le {s t : LoginWorker} (h : Follows s t) :
    t.replies.length ≤ s.replies.length := by
  obtain ⟨_, ⟨used, hu⟩⟩ := h
  rw [hu, List.length_append]
  omega

theorem twoFactorWhile_follows (toks : List String) :
    ∀ s : LoginWorker, Follows s (twoFactorWhile fromJson toks s [] []).state := by
  induction toks with
  | nil =>
    intro s
    by_cases h : s.jsonObject.str "success" = "partial"
    · rw [twoFactorWhile_noToken fromJson s [] [] h]
      exact Follows.of_eq _ rfl rfl
    · rw [twoFactorWhile_exit fromJson [] s [] [] h]
      exact Follows.refl s
  | cons token rest ih =>
    intro s
    by_cases h : s.jsonObject.str "success" = "partial"
    · by_cases hc : token = "cancel"
      · subst hc
        rw [twoFactorWhile_cancel fromJson rest s [] [] h]
        exact Follows.of_eq _ rfl rfl
      · cases hr : s.replies with
        | nil =>
          rw [twoFactorWhile_noReply fromJson token rest s h hc hr]
          exact Follows.of_eq _ rfl rfl
        | cons body more =>
          rw [twoFactorWhile_retry fromJson token rest s body more h hc hr]
          refine Follows.trans ?_ (ih _)
          exact ⟨⟨_, rfl⟩, ⟨[body], by simp [hr]⟩⟩
    · rw [twoFactorWhile_exit fromJson _ s [] [] h]
      exact Follows.refl s

/-- When the loop is left through its condition, the status is not "partial". -/
theorem twoFactorWhile_exited (toks : List String) :
    ∀ s t : LoginWorker, twoFactorWhile fromJson toks s [] [] = .exited t →
      t.jsonObject.str "success" ≠ "partial" := by
  induction toks with
  | nil =>
    intro s t ht
    by_cases h : s.jsonObject.str "success" = "partial"
    · rw [twoFactorWhile_noToken fromJson s [] [] h] at ht
      cases ht
    · rw [twoFactorWhile_exit fromJson [] s [] [] h] at ht
      cases ht
      exact h
  | cons token rest ih =>
    intro s t ht
    by_cases h : s.jsonObject.str "success" = "partial"
    · by_cases hc : token = "cancel"
      · subst hc
        rw [twoFactorWhile_cancel fromJson rest s [] [] h] at ht
        cases ht
      · cases hr : s.replies with
        | nil =>
          rw [twoFactorWhile_noReply fromJson token rest s h hc hr] at ht
          cases ht
        | cons body more =>
          rw [twoFactorWhile_retry fromJson token rest s body more h hc hr] at ht
          exact ih _ t ht
    · rw [twoFactorWhile_exit fromJson _ s [] [] h] at ht
      cases ht
      exact h

theorem authenticationLoop_zero (s : LoginWorker) :
    authenticationLoop fromJson 0 s = .outOfFuel s := by
  simp [authenticationLoop]

theorem startTwoFactorAuthentication_zero (s : LoginWorker) :
    startTwoFactorAuthentication fromJson 0 s = .outOfFuel s := by
  simp [startTwoFactorAuthentication]

/-- The branches of `authenticationLoop` that do not enter the two-factor loop
return at once. -/
theorem authenticationLoop_direct (fuel : Nat) (s : LoginWorker)
    (h : s.jsonObject.str "success" ≠ "partial") :
    ∃ t : LoginWorker, authenticationLoop fromJson (fuel + 1) s = .returned t ∧
      Follows s t ∧ t.replies = s.replies ∧ t.tokens = s.tokens ∧
      t.authToken = s.authToken ∧ t.jsonObject = s.jsonObject := by
  by_cases h1 : s.jsonObject.str "success" = "false"
  · exact ⟨_, authenticationLoop_rejected fromJson fuel s h1, Follows.of_eq _ rfl rfl,
      rfl, rfl, rfl, rfl⟩
  · by_cases h3 : s.jsonObject.str "success" = "delayed"
    · exact ⟨_, authenticationLoop_delayed fromJson fuel s h3, Follows.of_eq _ rfl rfl,
        rfl, rfl, rfl, rfl⟩
    · by_cases h4 : s.jsonObject.str "success" = "true"
      · exact ⟨_, authenticationLoop_success fromJson fuel s h4, Follows.of_eq _ rfl rfl,
          rfl, rfl, rfl, rfl⟩
      · exact ⟨_, authenticationLoop_unknown fromJson fuel s h1 h h3 h4,
          Follows.of_eq _ rfl rfl, rfl, rfl, rfl, rfl⟩

theorem startTwoFactorAuthentication_succ (fuel : Nat) (s : LoginWorker) :
    startTwoFactorAuthentication fromJson (fuel + 1) s =
      match twoFactorWhile fromJson s.tokens s [] [] with
      | .cancelled t => .returned t
      | .waiting t => .waiting t
      | .exited t =>
        authenticationLoop fromJson fuel
          (if t.jsonObject.str "success" ≠ "false" then
            t.emit (.log ["Two Factor authentication complete"])
          else t) := by
  simp only [startTwoFactorAuthentication]

theorem startTwoFactorAuthentication_tokens (fuel : Nat) (s : LoginWorker)
    (toks : List String) (h : s.tokens = toks) :
    startTwoFactorAuthentication fromJson (fuel + 1) s =
      match twoFactorWhile fromJson toks s [] [] with
      | .cancelled t => .returned t
      | .waiting t => .waiting t
      | .exited t =>
        authenticationLoop fromJson fuel
          (if t.jsonObject.str "success" ≠ "false" then
            t.emit (.log ["Two Factor authentication complete"])
          else t) := by
  rw [startTwoFactorAuthentication_succ, h]

theorem calls_follow (fuel : Nat) :
    (∀ s : LoginWorker, Follows s (authenticationLoop fromJson fuel s).state) ∧
    (∀ s : LoginWorker, Follows s (startTwoFactorAuthentication fromJson fuel s).state) := by
  induction fuel with
  | zero =>
    refine ⟨fun s => ?_, fun s => ?_⟩
    · rw [authenticationLoop_zero]
      exact Follows.refl s
    · rw [startTwoFactorAuthentication_zero]
      exact Follows.refl s
  | succ fuel ih =>
    refine ⟨fun s => ?_, fun s => ?_⟩
    · by_cases h : s.jsonObject.str "success" = "partial"
      · rw [authenticationLoop_twoFactor fromJson fuel s h]
        exact Follows.trans (Follows.of_eq [] (by simp) rfl) (ih.2 _)
      · obtain ⟨t, ht, hf, _⟩ := authenticationLoop_direct fromJson fuel s h
        rw [ht]
        exact hf
    · rw [startTwoFactorAuthentication_succ]
      have hl := twoFactorWhile_follows fromJson s.tokens s
      cases hw : twoFactorWhile fromJson s.tokens s [] [] with
      | cancelled t =>
        rw [hw] at hl
        exact hl
      | waiting t =>
        rw [hw] at hl
        exact hl
      | exited t =>
        rw [hw] at hl
        refine Follows.trans hl (Follows.trans ?_ (ih.1 _))
        by_cases hf : t.jsonObject.str "success" = "false"
        · simp only [hf, ne_eq, not_true_eq_false, if_false]
          exact Follows.refl t
        · simp only [hf, ne_eq, not_false_eq_true, if_true]
          exact Follows.of_eq _ rfl rfl

/-- A round of the loop that is given a token other than "cancel" posts that
token as `appToken` with the stored `authToken`, and goes on as a call of
`startTwoFactorAuthentication` on the decoded reply. -/
theorem startTwoFactorAuthentication_retry (fuel : Nat) (s : LoginWorker) (token : String)
    (rest : List String) (body : QByteArray) (more : List QByteArray)
    (h : s.jsonObject.str "success" = "partial") (htok : s.tokens = token :: rest)
    (hc : token ≠ "cancel") (hr : s.replies = body :: more) :
    startTwoFactorAuthentication fromJson (fuel + 1) s =
      startTwoFactorAuthentication fromJson (fuel + 1) { s with
        jsonObject := (fromJson body).object
        receivedToken := token
        tokens := rest
        replies := more
        trace := s.trace ++
          [.sendMessage (s.jsonObject.str "banner"),
           .log ["Partial authentication: starting 2 factor authentication."],
           .prompt (s.jsonObject.str "banner"),
           .post [("appToken", token), ("authToken", s.authToken)]] } := by
  rw [startTwoFactorAuthentication_succ, startTwoFactorAuthentication_succ, htok,
    twoFactorWhile_retry fromJson token rest s body more h hc hr]

/-- The first retry after a partial response dispatched by `authenticationLoop`
carries the user's token as `appToken` and that response's `responseToken` as
`authToken`. -/
theorem authenticationLoop_first_retry (fuel : Nat) (s : LoginWorker) (token : String)
    (rest : List String) (h : s.jsonObject.str "success" = "partial")
    (htok : s.tokens = token :: rest) (hc : token ≠ "cancel") :
    ∃ evs : List Event, (authenticationLoop fromJson (fuel + 2) s).state.trace = s.trace ++
      [.sendMessage (s.jsonObject.str "banner"),
       .log ["Partial authentication: starting 2 factor authentication."],
       .prompt (s.jsonObject.str "banner"),
       .post [("appToken", token), ("authToken", s.jsonObject.str "responseToken")]] ++
      evs := by
  cases hr : s.replies with
  | nil =>
    rw [authenticationLoop_twoFactor fromJson (fuel + 1) s h,
      startTwoFactorAuthentication_tokens fromJson fuel
        { s with authToken := s.jsonObject.str "responseToken" } (token :: rest) htok,
      twoFactorWhile_noReply fromJson token rest
        { s with authToken := s.jsonObject.str "responseToken" } h hc hr]
    exact ⟨[], by simp [Outcome.state]⟩
  | cons body more =>
    rw [authenticationLoop_twoFactor fromJson (fuel + 1) s h,
      startTwoFactorAuthentication_retry fromJson fuel
        { s with authToken := s.jsonObject.str "responseToken" } token rest body more h htok hc hr]
    obtain ⟨⟨evs, he⟩, _⟩ := (calls_follow fromJson (fuel + 1)).2 { s with
        authToken := s.jsonObject.str "responseToken"
        jsonObject := (fromJson body).object
        receivedToken := token
        tokens := rest
        replies := more
        trace := s.trace ++
          [.sendMessage (s.jsonObject.str "banner"),
           .log ["Partial authentication: starting 2 factor authentication."],
           .prompt (s.jsonObject.str "banner"),
           .post [("appToken", token), ("authToken", s.jsonObject.str "responseToken")]] }
    exact ⟨evs, he⟩

/-- Whenever the loop is entered with the status "partial" it first sends the
banner and shows the prompt. -/
theorem twoFactorWhile_prompts (toks : List String) (s : LoginWorker)
    (h : s.jsonObject.str "success" = "partial") :
    ∃ evs : List Event, (twoFactorWhile fromJson toks s [] []).state.trace = s.trace ++
      [.sendMessage (s.jsonObject.str "banner"),
       .log ["Partial authentication: starting 2 factor authentication."],
       .prompt (s.jsonObject.str "banner")] ++ evs := by
  cases toks with
  | nil =>
    rw [twoFactorWhile_noToken fromJson s [] [] h]
    exact ⟨[], by simp [LoopExit.state]⟩
  | cons token rest =>
    by_cases hc : token = "cancel"
    · subst hc
      rw [twoFactorWhile_cancel fromJson rest s [] [] h]
      exact ⟨[.sendMessage "Cancelling login.",
        .log ["Cancelling two factor authentication\n"]], by simp [LoopExit.state]⟩
    · cases hr : s.replies with
      | nil =>
        rw [twoFactorWhile_noReply fromJson token rest s h hc hr]
        exact ⟨[.post [("appToken", token), ("authToken", s.authToken)]],
          by simp [LoopExit.state]⟩
      | cons body more =>
        rw [twoFactorWhile_retry fromJson token rest s body more h hc hr]
        obtain ⟨⟨evs, he⟩, _⟩ := twoFactorWhile_follows fromJson rest { s with
          jsonObject := (fromJson body).object
          receivedToken := token
          tokens := rest
          replies := more
          trace := s.trace ++
            [.sendMessage (s.jsonObject.str "banner"),
             .log ["Partial authentication: starting 2 factor authentication."],
             .prompt (s.jsonObject.str "banner"),
             .post [("appToken", token), ("authToken", s.authToken)]] }
        exact ⟨.post [("appToken", token), ("authToken", s.authToken)] :: evs,
          by rw [he]; simp⟩

/-- The loop returns from inside only on the token "cancel". -/
theorem twoFactorWhile_cancelled (toks : List String) :
    ∀ s t : LoginWorker, twoFactorWhile fromJson toks s [] [] = .cancelled t →
      t.receivedToken = "cancel" := by
  induction toks with
  | nil =>
    intro s t ht
    by_cases h : s.jsonObject.str "success" = "partial"
    · rw [twoFactorWhile_noToken fromJson s [] [] h] at ht
      cases ht
    · rw [twoFactorWhile_exit fromJson [] s [] [] h] at ht
      cases ht
  | cons token rest ih =>
    intro s t ht
    by_cases h : s.jsonObject.str "success" = "partial"
    · by_cases hc : token = "cancel"
      · subst hc
        rw [twoFactorWhile_cancel fromJson rest s [] [] h] at ht
        cases ht
        rfl
      · cases hr : s.replies with
        | nil =>
          rw [twoFactorWhile_noReply fromJson token rest s h hc hr] at ht
          cases ht
        | cons body more =>
          rw [twoFactorWhile_retry fromJson token rest s body more h hc hr] at ht
          exact ih _ t ht
    · rw [twoFactorWhile_exit fromJson _ s [] [] h] at ht
      cases ht

/-! ### The slots and the event loop -/

theorem timerFinished_noReply (fuel : Nat) (s : LoginWorker) (hr : s.replies = []) :
    timerFinished fromJson fuel s = .waiting { s with trace := s.trace ++
      [.log ["Queued authentication: checking where we stand in line again."],
       .post [("queueToken", s.lineToken)]] } := by
  simp [timerFinished, loginApiWorker, emit, hr, QUrlQuery.addQueryItem]

theorem timerFinished_reply (fuel : Nat) (s : LoginWorker) (body : QByteArray)
    (more : List QByteArray) (hr : s.replies = body :: more) :
    timerFinished fromJson fuel s = authenticationLoop fromJson fuel { s with
      jsonObject := (fromJson body).object
      replies := more
      trace := s.trace ++
        [.log ["Queued authentication: checking where we stand in line again."],
         .post [("queueToken", s.lineToken)]] } := by
  simp [timerFinished, loginApiWorker, emit, hr, QUrlQuery.addQueryItem]

theorem initiateLogin_noReply (fuel : Nat) (s : LoginWorker) (username password : String)
    (hr : s.replies = []) :
    initiateLogin fromJson fuel s username password = .waiting { s with trace := s.trace ++
      [.sendMessage "Sending credentials to the TTR Servers",
       .post [("username", username), ("password", password)]] } := by
  simp [initiateLogin, loginApiWorker, emit, hr, QUrlQuery.addQueryItem]

theorem initiateLogin_reply (fuel : Nat) (s : LoginWorker) (username password : String)
    (body : QByteArray) (more : List QByteArray) (hr : s.replies = body :: more) :
    initiateLogin fromJson fuel s username password = authenticationLoop fromJson fuel { s with
      jsonObject := (fromJson body).object
      replies := more
      trace := s.trace ++
        [.sendMessage "Sending credentials to the TTR Servers",
         .post [("username", username), ("password", password)]] } := by
  simp [initiateLogin, loginApiWorker, emit, hr, QUrlQuery.addQueryItem]

theorem exec_fire (n m : Nat) (s : LoginWorker) (ht : s.timer = some m) :
    exec fromJson (n + 1) s =
      match timerFinished fromJson 3 { s with timer := none } with
      | .returned t => exec fromJson n t
      | other => other := by
  simp [exec, ht]

theorem timerFinished_follows (fuel : Nat) (s : LoginWorker) :
    Follows s (timerFinished fromJson fuel s).state := by
  cases hr : s.replies with
  | nil =>
    rw [timerFinished_noReply fromJson fuel s hr]
    exact Follows.of_eq _ rfl rfl
  | cons body more =>
    rw [timerFinished_reply fromJson fuel s body more hr]
    refine Follows.trans ?_ ((calls_follow fromJson fuel).1 _)
    exact ⟨⟨_, rfl⟩, ⟨[body], by simp [hr]⟩⟩

theorem initiateLogin_follows (fuel : Nat) (s : LoginWorker) (username password : String) :
    Follows s (initiateLogin fromJson fuel s username password).state := by
  cases hr : s.replies with
  | nil =>
    rw [initiateLogin_noReply fromJson fuel s username password hr]
    exact Follows.of_eq _ rfl rfl
  | cons body more =>
    rw [initiateLogin_reply fromJson fuel s username password body more hr]
    refine Follows.trans ?_ ((calls_follow fromJson fuel).1 _)
    exact ⟨⟨_, rfl⟩, ⟨[body], by simp [hr]⟩⟩

theorem exec_follows (n : Nat) : ∀ s : LoginWorker, Follows s (exec fromJson n s).state := by
  induction n with
  | zero =>
    intro s
    cases ht : s.timer with
    | none =>
      rw [exec_idle fromJson 0 s ht]
      exact Follows.refl s
    | some m =>
      simp only [exec, ht]
      exact Follows.refl s
  | succ n ih =>
    intro s
    cases ht : s.timer with
    | none =>
      rw [exec_idle fromJson _ s ht]
      exact Follows.refl s
    | some m =>
      rw [exec_fire fromJson n m s ht]
      have hf := timerFinished_follows fromJson 3 { s with timer := none }
      have hs : Follows s { s with timer := none } := Follows.of_eq [] (by simp) rfl
      cases ho : timerFinished fromJson 3 { s with timer := none } with
      | returned t =>
        rw [ho] at hf
        exact Follows.trans hs (Follows.trans hf (ih t))
      | waiting t =>
        rw [ho] at hf
        exact Follows.trans hs hf
      | outOfFuel t =>
        rw [ho] at hf
        exact Follows.trans hs hf

theorem resume_follows (n : Nat) (s : LoginWorker) :
    Follows s (match authenticationLoop fromJson 3 s with
      | .returned t => exec fromJson n t
      | other => other).state := by
  have hf := (calls_follow fromJson 3).1 s
  cases ho : authenticationLoop fromJson 3 s with
  | returned t =>
    rw [ho] at hf
    exact Follows.trans hf (exec_follows fromJson n t)
  | waiting t =>
    rw [ho] at hf
    exact hf
  | outOfFuel t =>
    rw [ho] at hf
    exact hf

/-- What the event loop does with an active timer: `timerFinished` logs and
posts the stored `lineToken` as `queueToken`; whatever follows comes after. -/
theorem exec_fire_trace (n m : Nat) (s : LoginWorker) (ht : s.timer = some m) :
    ∃ evs : List Event, (exec fromJson (n + 1) s).state.trace = s.trace ++
      [.log ["Queued authentication: checking where we stand in line again."],
       .post [("queueToken", s.lineToken)]] ++ evs := by
  rw [exec_fire fromJson n m s ht]
  cases hr : s.replies with
  | nil =>
    rw [timerFinished_noReply fromJson 3 _ rfl]
    exact ⟨[], by simp [Outcome.state]⟩
  | cons body more =>
    rw [timerFinished_reply fromJson 3 _ body more rfl]
    obtain ⟨⟨evs, he⟩, _⟩ := resume_follows fromJson n { s with
      timer := none
      jsonObject := (fromJson body).object
      replies := more
      trace := s.trace ++
        [.log ["Queued authentication: checking where we stand in line again."],
         .post [("queueToken", s.lineToken)]] }
    exact ⟨evs, he⟩

/-! ### Turns in the queue -/

theorem posts_queueTrace (ds : List QByteArray) :
    posts (queueTrace fromJson ds) =
      ds.map (fun b => [("queueToken", (fromJson b).object.str "queueToken")]) := by
  induction ds with
  | nil => rfl
  | cons b bs ih => simp [queueTrace, queueRound, posts, ih]

theorem countP_queueTrace (ds : List QByteArray) :
    (queueTrace fromJson ds).countP Event.isTimerStart = ds.length ∧
    (queueTrace fromJson ds).countP Event.isStartGame = 0 ∧
    (queueTrace fromJson ds).countP Event.isAuthenticationFailed = 0 ∧
    (queueTrace fromJson ds).countP Event.isPrompt = 0 := by
  induction ds with
  | nil => simp [queueTrace]
  | cons b bs ih =>
    obtain ⟨h1, h2, h3, h4⟩ := ih
    simp [queueTrace, queueRound, List.countP_cons, Event.isTimerStart, Event.isStartGame,
      Event.isAuthenticationFailed, Event.isPrompt, h1, h2, h3, h4]

/-- With the timer active and the replies `ds` (all delayed) then `final`
(success "true") to come, the event loop polls once per reply and ends with the
launch of the game. -/
theorem exec_queue (final : QByteArray) (rest : List QByteArray)
    (hfin : (fromJson final).object.str "success" = "true") (ds : List QByteArray) :
    ∀ (s : LoginWorker) (n m : Nat), s.timer = some m → s.replies = ds ++ final :: rest →
      ds.length < n → (∀ b ∈ ds, (fromJson b).object.str "success" = "delayed") →
      ∃ t : LoginWorker, exec fromJson n s = .returned t ∧
        t.trace = s.trace ++
          [.log ["Queued authentication: checking where we stand in line again."],
           .post [("queueToken", s.lineToken)]] ++
          queueTrace fromJson ds ++ launchEvents (fromJson final).object ∧
        t.replies = rest ∧ t.tokens = s.tokens ∧ t.timer = none := by
  induction ds with
  | nil =>
    intro s n m ht hr hn _
    obtain ⟨k, rfl⟩ : ∃ k, n = k + 1 := ⟨n - 1, by omega⟩
    rw [exec_fire fromJson k m s ht,
      timerFinished_reply fromJson 3 { s with timer := none } final rest hr,
      authenticationLoop_success fromJson 2 _ hfin]
    refine ⟨_, exec_idle fromJson k _ rfl, ?_, rfl, rfl, rfl⟩
    simp [queueTrace, launchEvents]
  | cons d ds ih =>
    intro s n m ht hr hn hds
    obtain ⟨k, rfl⟩ : ∃ k, n = k + 1 := ⟨n - 1, by omega⟩
    have hd : (fromJson d).object.str "success" = "delayed" := hds d (by simp)
    rw [exec_fire fromJson k m s ht,
      timerFinished_reply fromJson 3 { s with timer := none } d (ds ++ final :: rest) hr,
      authenticationLoop_delayed fromJson 2 _ hd]
    obtain ⟨t, h1, h2, h3, h4, h5⟩ := ih { s with
        jsonObject := (fromJson d).object
        replies := ds ++ final :: rest
        lineToken := (fromJson d).object.str "queueToken"
        timer := some 500
        trace := s.trace ++
          [.log ["Queued authentication: checking where we stand in line again."],
           .post [("queueToken", s.lineToken)]] ++
          [.log ["Waiting in queue. ETA:", (fromJson d).object.str "eta",
             ", Position in line:", (fromJson d).object.str "position"],
           .sendMessage ("Waiting in queue. ETA: " ++ (fromJson d).object.str "eta"
             ++ ", Position in line: " ++ (fromJson d).object.str "position"),
           .timerStart 500] } k 500 rfl rfl
        (by simp only [List.length_cons] at hn; omega)
        (fun b hb => hds b (by simp [hb]))
    refine ⟨t, h1, ?_, h3, h4, h5⟩
    rw [h2]
    simp [queueTrace, queueRound]

/-! ### Where the stored tokens are written -/

/-- Outside the two-factor branch the result does not depend on the bound. -/
theorem authenticationLoop_direct_fuel (fuel : Nat) (s : LoginWorker)
    (h : s.jsonObject.str "success" ≠ "partial") :
    authenticationLoop fromJson (fuel + 1) s = authenticationLoop fromJson 1 s := by
  by_cases h1 : s.jsonObject.str "success" = "false"
  · rw [authenticationLoop_rejected fromJson fuel s h1,
      authenticationLoop_rejected fromJson 0 s h1]
  · by_cases h3 : s.jsonObject.str "success" = "delayed"
    · rw [authenticationLoop_delayed fromJson fuel s h3,
        authenticationLoop_delayed fromJson 0 s h3]
    · by_cases h4 : s.jsonObject.str "success" = "true"
      · rw [authenticationLoop_success fromJson fuel s h4,
          authenticationLoop_success fromJson 0 s h4]
      · rw [authenticationLoop_unknown fromJson fuel s h1 h h3 h4,
          authenticationLoop_unknown fromJson 0 s h1 h h3 h4]

/-- The two-factor branch, with the loop run and the call that follows it. -/
theorem authenticationLoop_twoFactor_run (fuel : Nat) (s : LoginWorker)
    (h : s.jsonObject.str "success" = "partial") :
    authenticationLoop fromJson (fuel + 3) s =
      match twoFactorWhile fromJson s.tokens
          { s with authToken := s.jsonObject.str "responseToken" } [] [] with
      | .cancelled t => .returned t
      | .waiting t => .waiting t
      | .exited t =>
        authenticationLoop fromJson 1
          (if t.jsonObject.str "success" ≠ "false" then
            t.emit (.log ["Two Factor authentication complete"])
          else t) := by
  rw [authenticationLoop_twoFactor fromJson (fuel + 2) s h, startTwoFactorAuthentication_succ]
  cases hw : twoFactorWhile fromJson s.tokens
      { s with authToken := s.jsonObject.str "responseToken" } [] [] with
  | cancelled t => rfl
  | waiting t => rfl
  | exited t =>
    have hx := twoFactorWhile_exited fromJson _ _ t hw
    simp only
    apply authenticationLoop_direct_fuel
    by_cases hf : t.jsonObject.str "success" = "false"
    · simp [hf]
    · simpa [hf, emit] using hx

theorem authenticationLoop_fuel (fuel : Nat) (s : LoginWorker) :
    authenticationLoop fromJson (fuel + 3) s = authenticationLoop fromJson 3 s := by
  by_cases h : s.jsonObject.str "success" = "partial"
  · rw [authenticationLoop_twoFactor_run fromJson fuel s h,
      authenticationLoop_twoFactor_run fromJson 0 s h]
  · rw [authenticationLoop_direct_fuel fromJson (fuel + 2) s h,
      authenticationLoop_direct_fuel fromJson 2 s h]

theorem authenticationLoop_enough (fuel : Nat) (s : LoginWorker) :
    (authenticationLoop fromJson (fuel + 3) s).isOutOfFuel = false := by
  by_cases h : s.jsonObject.str "success" = "partial"
  · rw [authenticationLoop_twoFactor_run fromJson fuel s h]
    cases hw : twoFactorWhile fromJson s.tokens
        { s with authToken := s.jsonObject.str "responseToken" } [] [] with
    | cancelled t => rfl
    | waiting t => rfl
    | exited t =>
      have hx := twoFactorWhile_exited fromJson _ _ t hw
      simp only
      have hd : (if t.jsonObject.str "success" ≠ "false" then
            t.emit (.log ["Two Factor authentication complete"])
          else t).jsonObject.str "success" ≠ "partial" := by
        by_cases hf : t.jsonObject.str "success" = "false"
        · simp [hf]
        · simpa [hf, emit] using hx
      obtain ⟨u, hu, _⟩ := authenticationLoop_direct fromJson 0 _ hd
      rw [hu]
      rfl
  · obtain ⟨u, hu, _⟩ := authenticationLoop_direct fromJson (fuel + 2) s h
    rw [hu]
    rfl

/-- After a call of `authenticationLoop` the event loop has fuel left for every
reply that is left. -/
theorem resume_enough (n : Nat)
    (ih : ∀ t : LoginWorker, t.replies.length < n → (exec fromJson n t).isOutOfFuel = false)
    (s : LoginWorker) (hlt : s.replies.length < n) :
    (match authenticationLoop fromJson 3 s with
      | .returned t => exec fromJson n t
      | other => other).isOutOfFuel = false := by
  have he := authenticationLoop_enough fromJson 0 s
  have hf := (calls_follow fromJson 3).1 s
  simp only [Nat.zero_add] at he
  cases ho : authenticationLoop fromJson 3 s with
  | returned t =>
    rw [ho] at hf
    have hl := Follows.length_le hf
    simp only [Outcome.state] at hl
    exact ih t (by omega)
  | waiting t => rfl
  | outOfFuel t =>
    rw [ho] at he
    cases he

theorem exec_enough (n : Nat) :
    ∀ s : LoginWorker, s.replies.length < n → (exec fromJson n s).isOutOfFuel = false := by
  induction n with
  | zero =>
    intro s hlt
    omega
  | succ n ih =>
    intro s hlt
    cases ht : s.timer with
    | none =>
      rw [exec_idle fromJson _ s ht]
      rfl
    | some m =>
      rw [exec_fire fromJson n m s ht]
      cases hr : s.replies with
      | nil =>
        rw [timerFinished_noReply fromJson 3 _ rfl]
        rfl
      | cons body more =>
        rw [timerFinished_reply fromJson 3 _ body more rfl]
        apply resume_enough fromJson n ih
        rw [hr] at hlt
        simp only [List.length_cons] at hlt
        simp only
        omega

/-- Enough fuel: a run never stops at the bound on nested calls and timer
firings; it ends by returning to an idle event loop or by waiting for a reply
or a token that the script does not hold. -/
theorem fuel_enough (replies : List QByteArray) (tokens : List String)
    (username password : String) :
    (login fromJson replies tokens username password).isOutOfFuel = false := by
  unfold login
  cases replies with
  | nil =>
    rw [initiateLogin_noReply fromJson 3 _ username password rfl]
    rfl
  | cons body more =>
    rw [initiateLogin_reply fromJson 3 _ username password body more rfl]
    apply resume_enough fromJson _ (exec_enough fromJson _)
    simp only [List.length_cons]
    omega

/-! ### Every run is a sequence of exchanges -/

theorem authenticationLoop_direct_eq (fuel : Nat) (x : LoginWorker)
    (h : x.jsonObject.str "success" ≠ "partial") :
    authenticationLoop fromJson (fuel + 1) x = .returned (direct x) := by
  by_cases h1 : x.jsonObject.str "success" = "false"
  · rw [authenticationLoop_rejected fromJson fuel x h1]
    simp [direct, directEvents, h1]
  · by_cases h3 : x.jsonObject.str "success" = "delayed"
    · rw [authenticationLoop_delayed fromJson fuel x h3]
      simp [direct, directEvents, h3]
    · by_cases h4 : x.jsonObject.str "success" = "true"
      · rw [authenticationLoop_success fromJson fuel x h4]
        simp [direct, directEvents, h4, launchEvents]
      · rw [authenticationLoop_unknown fromJson fuel x h1 h h3 h4]
        simp [direct, directEvents, h1, h3, h4, unknownEvents]

theorem direct_replies (x : LoginWorker) : (direct x).replies = x.replies := by
  unfold direct
  split <;> rfl

theorem direct_tokens (x : LoginWorker) : (direct x).tokens = x.tokens := by
  unfold direct
  split <;> rfl

theorem direct_jsonObject (x : LoginWorker) : (direct x).jsonObject = x.jsonObject := by
  unfold direct
  split <;> rfl

theorem direct_trace (x : LoginWorker) :
    (direct x).trace = x.trace ++ directEvents x.jsonObject := by
  unfold direct
  split <;> rfl

theorem direct_timer (x : LoginWorker) :
    (direct x).timer = if x.jsonObject.str "success" = "delayed" then some 500 else x.timer := by
  unfold direct
  split <;> rfl

theorem completed_status (x : LoginWorker) :
    (completed x).jsonObject = x.jsonObject := by
  unfold completed
  split <;> rfl

/-- From the head of the two-factor loop, `startTwoFactorAuthentication` is a
sequence of exchanges. -/
theorem startTwoFactorAuthentication_reach (toks : List String) :
    ∀ (s : LoginWorker) (fuel : Nat), s.tokens = toks →
      s.jsonObject.str "success" = "partial" →
      Reach fromJson (.head s) (cfg (startTwoFactorAuthentication fromJson (fuel + 2) s)) := by
  induction toks with
  | nil =>
    intro s fuel htok h
    rw [startTwoFactorAuthentication_tokens fromJson (fuel + 1) s [] htok,
      twoFactorWhile_noToken fromJson s [] [] h]
    exact Relation.ReflTransGen.single (Step.headNoToken s htok)
  | cons token rest ih =>
    intro s fuel htok h
    by_cases hc : token = "cancel"
    · subst hc
      rw [startTwoFactorAuthentication_tokens fromJson (fuel + 1) s _ htok,
        twoFactorWhile_cancel fromJson rest s [] [] h]
      exact Relation.ReflTransGen.single (Step.headCancel s rest htok)
    · cases hr : s.replies with
      | nil =>
        rw [startTwoFactorAuthentication_tokens fromJson (fuel + 1) s _ htok,
          twoFactorWhile_noReply fromJson token rest s h hc hr]
        exact Relation.ReflTransGen.single (Step.headNoReply s token rest htok hc hr)
      | cons body more =>
        by_cases hb : (fromJson body).object.str "success" = "partial"
        · rw [startTwoFactorAuthentication_retry fromJson (fuel + 1) s token rest body more
            h htok hc hr]
          exact Relation.ReflTransGen.head (Step.headAgain s token rest body more htok hc hr hb)
            (ih _ fuel rfl hb)
        · rw [startTwoFactorAuthentication_tokens fromJson (fuel + 1) s _ htok,
            twoFactorWhile_retry fromJson token rest s body more h hc hr,
            twoFactorWhile_exit fromJson rest _ [] [] hb]
          have hd := authenticationLoop_direct_eq fromJson fuel (completed { s with
            jsonObject := (fromJson body).object
            receivedToken := token
            tokens := rest
            replies := more
            trace := s.trace ++ retryEvents s token }) (by rw [completed_status]; exact hb)
          change Reach fromJson (.head s) (cfg (authenticationLoop fromJson (fuel + 1)
            (completed { s with
              jsonObject := (fromJson body).object
              receivedToken := token
              tokens := rest
              replies := more
              trace := s.trace ++ retryEvents s token })))
          rw [hd]
          exact Relation.ReflTransGen.single
            (Step.headDirect s token rest body more htok hc hr hb)

/-- After a decoded reply, `authenticationLoop` followed by the event loop is a
sequence of exchanges; `c` is the place the request was made from and `step`
the exchange that the reply completes. -/
theorem resume_reach (n : Nat)
    (ih : ∀ t : LoginWorker, t.replies.length < n →
      Reach fromJson (.idle t) (cfg (exec fromJson n t)))
    (c : Config) (x : LoginWorker) (hlt : x.replies.length < n)
    (hdirect : x.jsonObject.str "success" ≠ "partial" → Step fromJson c (.idle (direct x)))
    (htwo : x.jsonObject.str "success" = "partial" →
      Step fromJson c (.head { x with authToken := x.jsonObject.str "responseToken" })) :
    Reach fromJson c (cfg (match authenticationLoop fromJson 3 x with
      | .returned t => exec fromJson n t
      | other => other)) := by
  by_cases h : x.jsonObject.str "success" = "partial"
  · have hr := startTwoFactorAuthentication_reach fromJson x.tokens
      { x with authToken := x.jsonObject.str "responseToken" } 0 rfl h
    have hf := (calls_follow fromJson 2).2 { x with authToken := x.jsonObject.str "responseToken" }
    rw [authenticationLoop_twoFactor fromJson 2 x h]
    simp only [Nat.zero_add] at hr
    cases ho : startTwoFactorAuthentication fromJson 2
        { x with authToken := x.jsonObject.str "responseToken" } with
    | returned t =>
      rw [ho] at hr hf
      have hl := Follows.length_le hf
      simp only [Outcome.state] at hl
      exact Relation.ReflTransGen.head (htwo h)
        (Relation.ReflTransGen.trans hr (ih t (by omega)))
    | waiting t =>
      rw [ho] at hr
      exact Relation.ReflTransGen.head (htwo h) hr
    | outOfFuel t =>
      rw [ho] at hr
      exact Relation.ReflTransGen.head (htwo h) hr
  · rw [authenticationLoop_direct_eq fromJson 2 x h]
    exact Relation.ReflTransGen.head (hdirect h)
      (ih (direct x) (by rw [direct_replies]; exact hlt))

/-- From the event loop, `exec` is a sequence of exchanges. -/
theorem exec_reach (n : Nat) :
    ∀ s : LoginWorker, s.replies.length < n →
      Reach fromJson (.idle s) (cfg (exec fromJson n s)) := by
  induction n with
  | zero =>
    intro s hlt
    omega
  | succ n ih =>
    intro s hlt
    cases ht : s.timer with
    | none =>
      rw [exec_idle fromJson _ s ht]
      exact Relation.ReflTransGen.refl
    | some m =>
      cases hr : s.replies with
      | nil =>
        rw [exec_fire fromJson n m s ht,
          timerFinished_noReply fromJson 3 { s with timer := none } hr]
        exact Relation.ReflTransGen.single (Step.fireNoReply s m ht hr)
      | cons body more =>
        rw [exec_fire fromJson n m s ht,
          timerFinished_reply fromJson 3 { s with timer := none } body more hr]
        apply resume_reach fromJson n ih
        · rw [hr] at hlt
          simp only [List.length_cons] at hlt
          simp only
          omega
        · exact fun hb => Step.fireDirect s m body more ht hr hb
        · exact fun hb => Step.fireTwoFactor s m body more ht hr hb

/-- Every run of `login` is a sequence of exchanges from the start. -/
theorem login_reach (replies : List QByteArray) (tokens : List String)
    (username password : String) :
    Reach fromJson (.start { replies := replies, tokens := tokens } username password)
      (cfg (login fromJson replies tokens username password)) := by
  unfold login
  cases replies with
  | nil =>
    rw [initiateLogin_noReply fromJson 3 _ username password rfl]
    exact Relation.ReflTransGen.single (Step.startNoReply _ username password rfl)
  | cons body more =>
    rw [initiateLogin_reply fromJson 3 _ username password body more rfl]
    apply resume_reach fromJson _ (exec_reach fromJson _)
    · simp only [List.length_cons]
      omega
    · exact fun hb => Step.startDirect _ username password body more rfl hb
    · exact fun hb => Step.startTwoFactor _ username password body more rfl hb

/-- When the event loop returns, no timer is active. -/
theorem exec_returned (n : Nat) :
    ∀ s t : LoginWorker, exec fromJson n s = .returned t → t.timer = none := by
  induction n with
  | zero =>
    intro s t h
    cases ht : s.timer with
    | none =>
      rw [exec_idle fromJson 0 s ht] at h
      cases h
      exact ht
    | some m =>
      simp [exec, ht] at h
  | succ n ih =>
    intro s t h
    cases ht : s.timer with
    | none =>
      rw [exec_idle fromJson _ s ht] at h
      cases h
      exact ht
    | some m =>
      rw [exec_fire fromJson n m s ht] at h
      cases ho : timerFinished fromJson 3 { s with timer := none } with
      | returned u =>
        rw [ho] at h
        exact ih u t h
      | waiting u =>
        rw [ho] at h
        cases h
      | outOfFuel u =>
        rw [ho] at h
        cases h

/-- When a run returns, no timer is active. -/
theorem login_returned (replies : List QByteArray) (tokens : List String)
    (username password : String) (t : LoginWorker)
    (h : login fromJson replies tokens username password = .returned t) : t.timer = none := by
  unfold login at h
  cases ho : initiateLogin fromJson 3 { replies := replies, tokens := tokens }
      username password with
  | returned u =>
    rw [ho] at h
    exact exec_returned fromJson _ u t h
  | waiting u =>
    rw [ho] at h
    cases h
  | outOfFuel u =>
    rw [ho] at h
    cases h

/-! ### Properties kept by every exchange -/

/-- A property of places that holds at the start of a sequence of exchanges and
is kept by every exchange holds at its end. -/
theorem Reach.invariant (Inv : Config → Prop)
    (hstep : ∀ c d : Config, Step fromJson c d → Inv c → Inv d)
    {c d : Config} (h : Reach fromJson c d) (h0 : Inv c) : Inv d := by
  unfold Reach at h
  induction h with
  | refl => exact h0
  | tail _ hs ih => exact hstep _ _ hs ih

theorem posts_loginEvents (username password : String) :
    posts (loginEvents username password) = [[("username", username), ("password", password)]] :=
  rfl

theorem posts_pollEvents (s : LoginWorker) :
    posts (pollEvents s) = [[("queueToken", s.lineToken)]] :=
  rfl

theorem posts_promptEvents (obj : QJsonObject) : posts (promptEvents obj) = [] :=
  rfl

theorem posts_cancelEvents (obj : QJsonObject) : posts (cancelEvents obj) = [] :=
  rfl

theorem posts_retryEvents (s : LoginWorker) (token : String) :
    posts (retryEvents s token) = [[("appToken", token), ("authToken", s.authToken)]] :=
  rfl

theorem posts_directEvents (obj : QJsonObject) : posts (directEvents obj) = [] := by
  unfold directEvents
  split
  · rfl
  · split
    · rfl
    · split <;> rfl

theorem posts_direct (x : LoginWorker) : posts (direct x).trace = posts x.trace := by
  rw [direct_trace, posts_append, posts_directEvents, List.append_nil]

theorem posts_completed (x : LoginWorker) : posts (completed x).trace = posts x.trace := by
  unfold completed
  split
  · simp [emit, posts_append, posts]
  · rfl

theorem retriesPromptedAfter_mono (b : Bool) (es : List Event)
    (h : retriesPromptedAfter false es = true) : retriesPromptedAfter b es = true := by
  cases es with
  | nil => rfl
  | cons e es =>
    simp only [retriesPromptedAfter, Bool.or_false, Bool.and_eq_true] at h ⊢
    exact ⟨by simp [h.1], h.2⟩

theorem retriesPromptedAfter_append (xs ys : List Event) :
    ∀ b : Bool, retriesPromptedAfter b xs = true → retriesPromptedAfter false ys = true →
      retriesPromptedAfter b (xs ++ ys) = true := by
  induction xs with
  | nil =>
    intro b _ hy
    exact retriesPromptedAfter_mono b ys hy
  | cons e es ih =>
    intro b hx hy
    simp only [List.cons_append, retriesPromptedAfter, Bool.and_eq_true] at hx ⊢
    exact ⟨hx.1, ih _ hx.2 hy⟩

theorem retriesPrompted_directEvents (obj : QJsonObject) :
    retriesPromptedAfter false (directEvents obj) = true := by
  unfold directEvents
  split
  · rfl
  · split
    · rfl
    · split <;> rfl

theorem retriesPrompted_direct (x : LoginWorker)
    (h : retriesPromptedAfter false x.trace = true) :
    retriesPromptedAfter false (direct x).trace = true := by
  rw [direct_trace]
  exact retriesPromptedAfter_append _ _ false h (retriesPrompted_directEvents _)

theorem retriesPrompted_completed (x : LoginWorker)
    (h : retriesPromptedAfter false x.trace = true) :
    retriesPromptedAfter false (completed x).trace = true := by
  unfold completed
  split
  · exact retriesPromptedAfter_append _ _ false h rfl
  · exact h

theorem retriesPrompted_retryEvents (s : LoginWorker) (token : String) :
    retriesPromptedAfter false (retryEvents s token) = true := by
  simp [retryEvents, promptEvents, retriesPromptedAfter, Event.isRetry, Event.isPrompt]

theorem retriesPrompted_step (c d : Config) (hs : Step fromJson c d)
    (hi : retriesPromptedAfter false c.state.trace = true) :
    retriesPromptedAfter false d.state.trace = true := by
  cases hs with
  | startNoReply s u p hr =>
    exact retriesPromptedAfter_append _ _ false hi rfl
  | startDirect s u p body more hr hb =>
    exact retriesPrompted_direct _ (retriesPromptedAfter_append _ _ false hi rfl)
  | startTwoFactor s u p body more hr hb =>
    exact retriesPromptedAfter_append _ _ false hi rfl
  | fireNoReply s m ht hr =>
    exact retriesPromptedAfter_append _ _ false hi rfl
  | fireDirect s m body more ht hr hb =>
    exact retriesPrompted_direct _ (retriesPromptedAfter_append _ _ false hi rfl)
  | fireTwoFactor s m body more ht hr hb =>
    exact retriesPromptedAfter_append _ _ false hi rfl
  | headNoToken s htok =>
    exact retriesPromptedAfter_append _ _ false hi rfl
  | headCancel s rest2 htok =>
    exact retriesPromptedAfter_append _ _ false hi rfl
  | headNoReply s token rest2 htok hc hr =>
    exact retriesPromptedAfter_append _ _ false hi (retriesPrompted_retryEvents s token)
  | headAgain s token rest2 body more htok hc hr hb =>
    exact retriesPromptedAfter_append _ _ false hi (retriesPrompted_retryEvents s token)
  | headDirect s token rest2 body more htok hc hr hb =>
    exact retriesPrompted_direct _ (retriesPrompted_completed _
      (retriesPromptedAfter_append _ _ false hi (retriesPrompted_retryEvents s token)))

/-! ### The count of the requests -/

theorem owed_direct (x : LoginWorker) (h : x.timer = none) :
    owed (.idle (direct x)) = if x.jsonObject.str "success" = "delayed" then 1 else 0 := by
  simp only [owed, direct_timer, h]
  split <;> rfl

theorem counted_step (replies : List QByteArray) (tokens : List String) (c d : Config)
    (hs : Step fromJson c d) (hi : Counted fromJson replies tokens c) :
    Counted fromJson replies tokens d := by
  obtain ⟨⟨ur, ut, h1, h2, h3⟩, h4⟩ := hi
  cases hs with
  | startNoReply s u p hr =>
    refine ⟨⟨ur, ut, ?_, h2, ?_⟩, trivial⟩
    · simpa [Config.state] using h1
    · simp only [Config.state, owed, posts_append, posts_loginEvents, List.length_append,
        List.length_singleton] at h3 ⊢
      omega
  | startDirect s u p body more hr hb =>
    refine ⟨⟨ur ++ [body], ut, ?_, ?_, ?_⟩, trivial⟩
    · simp only [Config.state, direct_replies] at h1 ⊢
      rw [h1, hr]
      simp
    · simpa [Config.state, direct_tokens] using h2
    · have h4b : s.timer = none := h4
      rw [owed_direct { s with
        jsonObject := (fromJson body).object
        replies := more
        trace := s.trace ++ loginEvents u p } h4b]
      simp only [Config.state, owed, posts_direct, posts_append, posts_loginEvents,
        List.length_append, List.length_singleton, List.countP_append, List.countP_cons,
        List.countP_nil, isDelayedBody] at h3 ⊢
      by_cases hd : (fromJson body).object.str "success" = "delayed"
      · simp only [hd, decide_True, if_true] at h3 ⊢
        omega
      · simp only [hd, decide_False, if_false] at h3 ⊢
        simp
        omega
  | startTwoFactor s u p body more hr hb =>
    refine ⟨⟨ur ++ [body], ut, ?_, ?_, ?_⟩, h4⟩
    · simp only [Config.state] at h1 ⊢
      rw [h1, hr]
      simp
    · simpa [Config.state] using h2
    · have hd : ¬ (fromJson body).object.str "success" = "delayed" := by
        rw [hb]
        decide
      simp only [Config.state, owed, posts_append, posts_loginEvents,
        List.length_append, List.length_singleton, List.countP_append, List.countP_cons,
        List.countP_nil, isDelayedBody, hd, decide_False] at h3 ⊢
      simp
      omega
  | fireNoReply s m ht hr =>
    refine ⟨⟨ur, ut, ?_, h2, ?_⟩, trivial⟩
    · simpa [Config.state] using h1
    · simp only [Config.state, owed, ht, Option.isSome_some, if_true, posts_append,
        posts_pollEvents, List.length_append, List.length_singleton] at h3 ⊢
      omega
  | fireDirect s m body more ht hr hb =>
    refine ⟨⟨ur ++ [body], ut, ?_, ?_, ?_⟩, trivial⟩
    · simp only [Config.state, direct_replies] at h1 ⊢
      rw [h1, hr]
      simp
    · simpa [Config.state, direct_tokens] using h2
    · rw [owed_direct _ rfl]
      simp only [Config.state, owed, ht, Option.isSome_some, if_true, posts_direct,
        posts_append, posts_pollEvents,
        List.length_append, List.length_singleton, List.countP_append, List.countP_cons,
        List.countP_nil, isDelayedBody] at h3 ⊢
      by_cases hd : (fromJson body).object.str "success" = "delayed"
      · simp only [hd, decide_True, if_true] at h3 ⊢
        omega
      · simp only [hd, decide_False, if_false] at h3 ⊢
        simp
        omega
  | fireTwoFactor s m body more ht hr hb =>
    refine ⟨⟨ur ++ [body], ut, ?_, ?_, ?_⟩, rfl⟩
    · simp only [Config.state] at h1 ⊢
      rw [h1, hr]
      simp
    · simpa [Config.state] using h2
    · have hd : ¬ (fromJson body).object.str "success" = "delayed" := by
        rw [hb]
        decide
      simp only [Config.state, owed, ht, Option.isSome_some, if_true, posts_append,
        posts_pollEvents,
        List.length_append, List.length_singleton, List.countP_append, List.countP_cons,
        List.countP_nil, isDelayedBody, hd, decide_False] at h3 ⊢
      simp
      omega
  | headNoToken s htok =>
    refine ⟨⟨ur, ut, ?_, ?_, ?_⟩, trivial⟩
    · simpa [Config.state] using h1
    · simpa [Config.state] using h2
    · simp only [Config.state, owed, posts_append, posts_promptEvents, List.append_nil] at h3 ⊢
      omega
  | headCancel s rest2 htok =>
    refine ⟨⟨ur, ut ++ ["cancel"], ?_, ?_, ?_⟩, trivial⟩
    · simpa [Config.state] using h1
    · simp only [Config.state] at h2 ⊢
      rw [h2, htok]
      simp
    · simp only [Config.state, owed, h4, Option.isSome_none, posts_append, posts_cancelEvents,
        List.append_nil, List.countP_append, List.countP_cons, List.countP_nil,
        isNonCancel] at h3 ⊢
      simp
      omega
  | headNoReply s token rest2 htok hc hr =>
    refine ⟨⟨ur, ut ++ [token], ?_, ?_, ?_⟩, trivial⟩
    · simpa [Config.state] using h1
    · simp only [Config.state] at h2 ⊢
      rw [h2, htok]
      simp
    · simp only [Config.state, owed, posts_append, posts_retryEvents,
        List.length_append, List.length_singleton, List.countP_append, List.countP_cons,
        List.countP_nil, isNonCancel, hc] at h3 ⊢
      simp [hc]
      omega
  | headAgain s token rest2 body more htok hc hr hb =>
    refine ⟨⟨ur ++ [body], ut ++ [token], ?_, ?_, ?_⟩, h4⟩
    · simp only [Config.state] at h1 ⊢
      rw [h1, hr]
      simp
    · simp only [Config.state] at h2 ⊢
      rw [h2, htok]
      simp
    · have hd : ¬ (fromJson body).object.str "success" = "delayed" := by
        rw [hb]
        decide
      simp only [Config.state, owed, posts_append, posts_retryEvents,
        List.length_append, List.length_singleton, List.countP_append, List.countP_cons,
        List.countP_nil, isNonCancel, isDelayedBody, hc, hd, decide_False] at h3 ⊢
      simp [hc]
      omega
  | headDirect s token rest2 body more htok hc hr hb =>
    refine ⟨⟨ur ++ [body], ut ++ [token], ?_, ?_, ?_⟩, trivial⟩
    · simp only [Config.state, direct_replies] at h1 ⊢
      rw [h1, hr]
      unfold completed
      split <;> simp [emit]
    · simp only [Config.state, direct_tokens] at h2 ⊢
      rw [h2, htok]
      unfold completed
      split <;> simp [emit]
    · have htimer : (completed { s with
          jsonObject := (fromJson body).object
          receivedToken := token
          tokens := rest2
          replies := more
          trace := s.trace ++ retryEvents s token }).timer = none := by
        unfold completed
        split
        · exact h4
        · exact h4
      rw [owed_direct _ htimer, completed_status]
      simp only [Config.state, owed, posts_direct, posts_completed, posts_append,
        posts_retryEvents,
        List.length_append, List.length_singleton, List.countP_append, List.countP_cons,
        List.countP_nil, isNonCancel, isDelayedBody, hc] at h3 ⊢
      by_cases hd : (fromJson body).object.str "success" = "delayed"
      · simp only [hd, decide_True, if_true] at h3 ⊢
        simp [hc]
        omega
      · simp only [hd, decide_False, if_false] at h3 ⊢
        simp [hc]
        omega

/-! ### How a run ends -/

theorem Clean.append {xs ys : List Event} (hx : Clean xs) (hy : Clean ys) :
    Clean (xs ++ ys) := by
  unfold Clean at *
  simp [List.countP_append, hx.1, hx.2, hy.1, hy.2]

theorem clean_nil : Clean [] :=
  ⟨rfl, rfl⟩

theorem clean_loginEvents (username password : String) :
    Clean (loginEvents username password) :=
  ⟨rfl, rfl⟩

theorem clean_pollEvents (s : LoginWorker) : Clean (pollEvents s) :=
  ⟨rfl, rfl⟩

theorem clean_promptEvents (obj : QJsonObject) : Clean (promptEvents obj) :=
  ⟨rfl, rfl⟩

theorem clean_retryEvents (s : LoginWorker) (token : String) : Clean (retryEvents s token) :=
  ⟨rfl, rfl⟩

theorem clean_completed (x : LoginWorker) (h : Clean x.trace) : Clean (completed x).trace := by
  unfold completed
  split
  · exact Clean.append h ⟨rfl, rfl⟩
  · exact h

theorem completed_timer (x : LoginWorker) : (completed x).timer = x.timer := by
  unfold completed
  split <;> rfl

/-- What `authenticationLoop` makes of a status other than "partial", when
nothing has ended the run yet: the run ends, or it is queued. -/
theorem direct_settled (x : LoginWorker) (hx : Clean x.trace) (ht : x.timer = none) :
    Settled (.idle (direct x)) := by
  obtain ⟨c1, c2⟩ := hx
  by_cases h1 : x.jsonObject.str "success" = "false"
  · refine Or.inr ⟨by simp [direct, h1, ht], Or.inr (Or.inl ⟨⟨x.trace ++
      [.sendMessage (x.jsonObject.str "banner"),
       .log ["Login failed:", x.jsonObject.str "banner"]], ?_⟩, ?_, ?_⟩)⟩
    · simp [direct, directEvents, h1]
    · simp [direct, directEvents, h1, List.countP_append, List.countP_cons,
        Event.isAuthenticationFailed, c2]
    · simp [direct, directEvents, h1, List.countP_append, List.countP_cons,
        Event.isStartGame, c1]
  · by_cases h3 : x.jsonObject.str "success" = "delayed"
    · refine Or.inl ⟨by simp [direct, h3], ?_, ?_⟩
      · simp [direct, directEvents, h3, List.countP_append, List.countP_cons,
          Event.isStartGame, c1]
      · simp [direct, directEvents, h3, List.countP_append, List.countP_cons,
          Event.isAuthenticationFailed, c2]
    · by_cases h4 : x.jsonObject.str "success" = "true"
      · refine Or.inr ⟨by simp [direct, h3, ht], Or.inl ⟨⟨x.trace ++
          [.log ["Authenticated fully and starting game!"],
           .log ["Play cookie:", x.jsonObject.str "cookie", "Game server:",
             x.jsonObject.str "gameserver"],
           .sendMessage "Authentication complete. Starting game now."],
          x.jsonObject.str "cookie", x.jsonObject.str "gameserver", ?_⟩, ?_, ?_, ?_⟩⟩
        · simp [direct, directEvents, h4, launchEvents]
        · simp [direct, directEvents, h4, launchEvents, List.countP_append, List.countP_cons,
            Event.isStartGame, c1]
        · simp [direct, directEvents, h4, launchEvents, List.countP_append, List.countP_cons,
            Event.isAuthenticationFailed, c2]
        · rw [direct_jsonObject]
          exact h4
      · refine Or.inr ⟨by simp [direct, h3, ht], Or.inr (Or.inl ⟨⟨x.trace ++
          [.log ["Unable to authenticate.  Error:", x.jsonObject.str "banner"],
           .sendMessage (x.jsonObject.str "banner")], ?_⟩, ?_, ?_⟩)⟩
        · simp [direct, directEvents, h1, h3, h4, unknownEvents]
        · simp [direct, directEvents, h1, h3, h4, unknownEvents, List.countP_append,
            List.countP_cons, Event.isAuthenticationFailed, c2]
        · simp [direct, directEvents, h1, h3, h4, unknownEvents, List.countP_append,
            List.countP_cons, Event.isStartGame, c1]

theorem settled_step (c d : Config) (hs : Step fromJson c d) (hi : Settled c) :
    Settled d := by
  cases hs with
  | startNoReply s u p hr =>
    obtain ⟨h1, h2⟩ := hi
    exact Clean.append (by rw [h1]; exact clean_nil) (clean_loginEvents u p)
  | startDirect s u p body more hr hb =>
    obtain ⟨h1, h2⟩ := hi
    exact direct_settled _
      (Clean.append (by rw [h1]; exact clean_nil) (clean_loginEvents u p)) h2
  | startTwoFactor s u p body more hr hb =>
    obtain ⟨h1, h2⟩ := hi
    exact ⟨Clean.append (by rw [h1]; exact clean_nil) (clean_loginEvents u p), h2⟩
  | fireNoReply s m ht hr =>
    rcases hi with ⟨_, hc⟩ | ⟨hn, _⟩
    · exact Clean.append hc (clean_pollEvents s)
    · rw [ht] at hn
      cases hn
  | fireDirect s m body more ht hr hb =>
    rcases hi with ⟨_, hc⟩ | ⟨hn, _⟩
    · exact direct_settled _ (Clean.append hc (clean_pollEvents s)) rfl
    · rw [ht] at hn
      cases hn
  | fireTwoFactor s m body more ht hr hb =>
    rcases hi with ⟨_, hc⟩ | ⟨hn, _⟩
    · exact ⟨Clean.append hc (clean_pollEvents s), rfl⟩
    · rw [ht] at hn
      cases hn
  | headNoToken s htok =>
    exact Clean.append hi.1 (clean_promptEvents _)
  | headCancel s rest2 htok =>
    obtain ⟨⟨c1, c2⟩, h2⟩ := hi
    refine Or.inr ⟨h2, Or.inr (Or.inr ⟨⟨s.trace ++ promptEvents s.jsonObject, ?_⟩, ?_, ?_⟩)⟩
    · simp [cancelEvents]
    · simp [cancelEvents, promptEvents, List.countP_append, List.countP_cons,
        Event.isStartGame, c1]
    · simp [cancelEvents, promptEvents, List.countP_append, List.countP_cons,
        Event.isAuthenticationFailed, c2]
  | headNoReply s token rest2 htok hc hr =>
    exact Clean.append hi.1 (clean_retryEvents s token)
  | headAgain s token rest2 body more htok hc hr hb =>
    exact ⟨Clean.append hi.1 (clean_retryEvents s token), hi.2⟩
  | headDirect s token rest2 body more htok hc hr hb =>
    exact direct_settled _
      (clean_completed _ (Clean.append hi.1 (clean_retryEvents s token)))
      (by rw [completed_timer]; exact hi.2)

/-! ### The end of a run of `login` -/

theorem cfg_state (o : Outcome) : (cfg o).state = o.state := by
  cases o <;> rfl

theorem login_timer (replies : List QByteArray) (tokens : List String)
    (username password : String)
    (h : (login fromJson replies tokens username password).isReturned = true) :
    (login fromJson replies tokens username password).state.timer = none := by
  cases ho : login fromJson replies tokens username password with
  | returned t => exact login_returned fromJson replies tokens username password t ho
  | waiting t =>
    rw [ho] at h
    cases h
  | outOfFuel t =>
    rw [ho] at h
    cases h

theorem login_owed (replies : List QByteArray) (tokens : List String)
    (username password : String) :
    owed (cfg (login fromJson replies tokens username password)) = 0 := by
  cases ho : login fromJson replies tokens username password with
  | returned t =>
    have ht := login_returned fromJson replies tokens username password t ho
    simp [cfg, owed, ht]
  | waiting t => rfl
  | outOfFuel t => rfl

theorem login_counted (replies : List QByteArray) (tokens : List String)
    (username password : String) :
    Counted fromJson replies tokens (cfg (login fromJson replies tokens username password)) :=
  Reach.invariant fromJson (Counted fromJson replies tokens)
    (counted_step fromJson replies tokens) (login_reach fromJson replies tokens username password)
    ⟨⟨[], [], rfl, rfl, rfl⟩, rfl⟩

theorem login_settled (replies : List QByteArray) (tokens : List String)
    (username password : String) :
    Settled (cfg (login fromJson replies tokens username password)) :=
  Reach.invariant fromJson Settled (settled_step fromJson)
    (login_reach fromJson replies tokens username password) ⟨rfl, rfl⟩

theorem login_retries_prompted (replies : List QByteArray) (tokens : List String)
    (username password : String) :
    retriesPromptedAfter false
      (login fromJson replies tokens username password).state.trace = true := by
  rw [← cfg_state]
  exact Reach.invariant fromJson (fun c => retriesPromptedAfter false c.state.trace = true)
    (retriesPrompted_step fromJson) (login_reach fromJson replies tokens username password) rfl

/-- A run that returns has ended in one of the three ways. -/
theorem login_ended (replies : List QByteArray) (tokens : List String)
    (username password : String)
    (h : (login fromJson replies tokens username password).isReturned = true) :
    EndsLaunched (login fromJson replies tokens username password).state ∨
    EndsFailed (login fromJson replies tokens username password).state ∨
    EndsCancelled (login fromJson replies tokens username password).state := by
  have hs := login_settled fromJson replies tokens username password
  have ht := login_timer fromJson replies tokens username password h
  cases ho : login fromJson replies tokens username password with
  | returned t =>
    rw [ho] at hs ht
    rcases hs with ⟨hn, _⟩ | ⟨_, he⟩
    · exact absurd ht hn
    · exact he
  | waiting t =>
    rw [ho] at h
    cases h
  | outOfFuel t =>
    rw [ho] at h
    cases h

/-- At no place of a run the game has been started or a failure signalled more
than once. -/
theorem login_counts (replies : List QByteArray) (tokens : List String)
    (username password : String) :
    Clean (login fromJson replies tokens username password).state.trace ∨
    EndsLaunched (login fromJson replies tokens username password).state ∨
    EndsFailed (login fromJson replies tokens username password).state ∨
    EndsCancelled (login fromJson replies tokens username password).state := by
  have hs := login_settled fromJson replies tokens username password
  cases ho : login fromJson replies tokens username password with
  | returned t =>
    rw [ho] at hs
    rcases hs with ⟨_, hc⟩ | ⟨_, he⟩
    · exact Or.inl hc
    · exact Or.inr he
  | waiting t =>
    rw [ho] at hs
    exact Or.inl hs
  | outOfFuel t =>
    rw [ho] at hs
    exact Or.inl hs

/-- Where `authenticationFailed` is the last event and occurs once, nothing
comes after an `authenticationFailed`. -/
theorem EndsFailed.nothing_after {s : LoginWorker} (h : EndsFailed s) (pre post : List Event)
    (heq : s.trace = pre ++ .authenticationFailed :: post) : post = [] := by
  obtain ⟨⟨pre2, hp⟩, hc, _⟩ := h
  rcases List.eq_nil_or_concat post with hnil | ⟨init, l, rfl⟩
  · exact hnil
  · exfalso
    have h2 : (pre ++ .authenticationFailed :: init) ++ [l] = pre2 ++ [.authenticationFailed] := by
      rw [← hp, heq]
      simp
    have hl := (List.append_inj' h2 rfl).2
    simp only [List.cons.injEq, and_true] at hl
    subst hl
    rw [heq] at hc
    simp [List.countP_append, List.countP_cons, Event.isAuthenticationFailed] at hc
    omega

/-! ### No function reads the trace -/

theorem direct_prepend (pre : List Event) (x : LoginWorker) :
    direct (prepend pre x) = prepend pre (direct x) := by
  unfold direct
  by_cases h : x.jsonObject.str "success" = "delayed"
  · simp [prepend, h]
  · simp [prepend, h]

theorem completed_prepend (pre : List Event) (x : LoginWorker) :
    (if (prepend pre x).jsonObject.str "success" ≠ "false" then
      (prepend pre x).emit (.log ["Two Factor authentication complete"])
    else prepend pre x) =
    prepend pre (if x.jsonObject.str "success" ≠ "false" then
      x.emit (.log ["Two Factor authentication complete"])
    else x) := by
  by_cases h : x.jsonObject.str "success" = "false"
  · simp [prepend, h]
  · simp [prepend, h, emit]

theorem twoFactorWhile_prepend (pre : List Event) (toks : List String) :
    ∀ s : LoginWorker, twoFactorWhile fromJson toks (prepend pre s) [] [] =
      (twoFactorWhile fromJson toks s [] []).map (prepend pre) := by
  induction toks with
  | nil =>
    intro s
    by_cases h : s.jsonObject.str "success" = "partial"
    · rw [twoFactorWhile_noToken fromJson s [] [] h,
        twoFactorWhile_noToken fromJson (prepend pre s) [] [] h]
      simp [LoopExit.map, prepend]
    · rw [twoFactorWhile_exit fromJson [] s [] [] h,
        twoFactorWhile_exit fromJson [] (prepend pre s) [] [] h]
      rfl
  | cons token rest ih =>
    intro s
    by_cases h : s.jsonObject.str "success" = "partial"
    · by_cases hc : token = "cancel"
      · subst hc
        rw [twoFactorWhile_cancel fromJson rest s [] [] h,
          twoFactorWhile_cancel fromJson rest (prepend pre s) [] [] h]
        simp [LoopExit.map, prepend]
      · cases hr : s.replies with
        | nil =>
          rw [twoFactorWhile_noReply fromJson token rest s h hc hr,
            twoFactorWhile_noReply fromJson token rest (prepend pre s) h hc hr]
          simp [LoopExit.map, prepend]
        | cons body more =>
          rw [twoFactorWhile_retry fromJson token rest s body more h hc hr,
            twoFactorWhile_retry fromJson token rest (prepend pre s) body more h hc hr,
            ← ih]
          congr 1
          simp [prepend]
    · rw [twoFactorWhile_exit fromJson _ s [] [] h,
        twoFactorWhile_exit fromJson _ (prepend pre s) [] [] h]
      rfl

theorem calls_prepend (pre : List Event) (fuel : Nat) :
    (∀ s : LoginWorker, authenticationLoop fromJson fuel (prepend pre s) =
      (authenticationLoop fromJson fuel s).map (prepend pre)) ∧
    (∀ s : LoginWorker, startTwoFactorAuthentication fromJson fuel (prepend pre s) =
      (startTwoFactorAuthentication fromJson fuel s).map (prepend pre)) := by
  induction fuel with
  | zero =>
    refine ⟨fun s => ?_, fun s => ?_⟩
    · rw [authenticationLoop_zero, authenticationLoop_zero]
      rfl
    · rw [startTwoFactorAuthentication_zero, startTwoFactorAuthentication_zero]
      rfl
  | succ fuel ih =>
    refine ⟨fun s => ?_, fun s => ?_⟩
    · by_cases h : s.jsonObject.str "success" = "partial"
      · rw [authenticationLoop_twoFactor fromJson fuel s h,
          authenticationLoop_twoFactor fromJson fuel (prepend pre s) h]
        exact ih.2 { s with authToken := s.jsonObject.str "responseToken" }
      · rw [authenticationLoop_direct_eq fromJson fuel s h,
          authenticationLoop_direct_eq fromJson fuel (prepend pre s) h, direct_prepend]
        rfl
    · rw [startTwoFactorAuthentication_succ, startTwoFactorAuthentication_succ]
      have hw := twoFactorWhile_prepend fromJson pre s.tokens s
      have ht : (prepend pre s).tokens = s.tokens := rfl
      rw [ht, hw]
      cases twoFactorWhile fromJson s.tokens s [] [] with
      | cancelled t => rfl
      | waiting t => rfl
      | exited t =>
        simp only [LoopExit.map]
        rw [completed_prepend]
        exact ih.1 _

theorem resume_map (pre : List Event) (n : Nat) (o : Outcome)
    (ih : ∀ t : LoginWorker, exec fromJson n (prepend pre t) =
      (exec fromJson n t).map (prepend pre)) :
    (match o.map (prepend pre) with
      | .returned t => exec fromJson n t
      | other => other) =
    (match o with
      | .returned t => exec fromJson n t
      | other => other).map (prepend pre) := by
  cases o with
  | returned t => exact ih t
  | waiting t => rfl
  | outOfFuel t => rfl

theorem resume_prepend (pre : List Event) (n : Nat) (x base : LoginWorker)
    (hx : x = prepend pre base)
    (ih : ∀ t : LoginWorker, exec fromJson n (prepend pre t) =
      (exec fromJson n t).map (prepend pre)) :
    (match authenticationLoop fromJson 3 x with
      | .returned t => exec fromJson n t
      | other => other) =
    (match authenticationLoop fromJson 3 base with
      | .returned t => exec fromJson n t
      | other => other).map (prepend pre) := by
  subst hx
  rw [(calls_prepend fromJson pre 3).1]
  exact resume_map fromJson pre n _ ih

theorem exec_prepend (pre : List Event) (n : Nat) :
    ∀ s : LoginWorker, exec fromJson n (prepend pre s) =
      (exec fromJson n s).map (prepend pre) := by
  induction n with
  | zero =>
    intro s
    cases ht : s.timer with
    | none =>
      rw [exec_idle fromJson 0 s ht, exec_idle fromJson 0 (prepend pre s) ht]
      rfl
    | some m =>
      have ht2 : (prepend pre s).timer = some m := ht
      simp only [exec, ht, ht2]
      rfl
  | succ n ih =>
    intro s
    cases ht : s.timer with
    | none =>
      rw [exec_idle fromJson _ s ht, exec_idle fromJson _ (prepend pre s) ht]
      rfl
    | some m =>
      cases hr : s.replies with
      | nil =>
        rw [exec_fire fromJson n m s ht, exec_fire fromJson n m (prepend pre s) ht,
          timerFinished_noReply fromJson 3 { s with timer := none } hr,
          timerFinished_noReply fromJson 3 { prepend pre s with timer := none } hr]
        simp [Outcome.map, prepend]
      | cons body more =>
        rw [exec_fire fromJson n m s ht, exec_fire fromJson n m (prepend pre s) ht,
          timerFinished_reply fromJson 3 { s with timer := none } body more hr,
          timerFinished_reply fromJson 3 { prepend pre s with timer := none } body more hr]
        have hx : ({ prepend pre s with
            timer := none
            jsonObject := (fromJson body).object
            replies := more
            trace := (prepend pre s).trace ++
              [.log ["Queued authentication: checking where we stand in line again."],
               .post [("queueToken", (prepend pre s).lineToken)]] } : LoginWorker) =
            prepend pre { s with
              timer := none
              jsonObject := (fromJson body).object
              replies := more
              trace := s.trace ++
                [.log ["Queued authentication: checking where we stand in line again."],
                 .post [("queueToken", s.lineToken)]] } := by
          simp [prepend]
        rw [hx, (calls_prepend fromJson pre 3).1]
        exact resume_map fromJson pre n _ ih

/-- A run is the run after the credentials request with the progress message
and the credentials request put before its trace. -/
theorem login_afterLogin (replies : List QByteArray) (tokens : List String)
    (username password : String) :
    login fromJson replies tokens username password =
      (afterLogin fromJson replies tokens).map (prepend (loginEvents username password)) := by
  unfold login afterLogin
  cases replies with
  | nil =>
    rw [initiateLogin_noReply fromJson 3 _ username password rfl]
    rfl
  | cons body more =>
    rw [initiateLogin_reply fromJson 3 _ username password body more rfl]
    exact resume_prepend fromJson (loginEvents username password) _ _
      { jsonObject := (fromJson body).object, replies := more, tokens := tokens }
      (by simp [prepend, loginEvents]) (exec_prepend fromJson _ _)

/-! ### The tokens held are those the consumed replies stored -/

theorem QProcessEnvironment.find_filter_ne (env : QProcessEnvironment) (name other : String)
    (h : other ≠ name) :
    (env.filter (fun v => ¬ v.1 = name)).find? (fun v => v.1 = other) =
      env.find? (fun v => v.1 = other) := by
  induction env with
  | nil => rfl
  | cons v vs ih =>
    obtain ⟨a, b⟩ := v
    by_cases hv : a = name
    · have hne : ¬ a = other := fun ho => h (ho.symm.trans hv)
      rw [List.filter_cons_of_neg (by simpa using hv),
        List.find?_cons_of_neg _ (by simpa using hne)]
      exact ih
    · rw [List.filter_cons_of_pos (by simpa using hv)]
      by_cases ho : a = other
      · rw [List.find?_cons_of_pos _ (by simpa using ho),
          List.find?_cons_of_pos _ (by simpa using ho)]
      · rw [List.find?_cons_of_neg _ (by simpa using ho),
          List.find?_cons_of_neg _ (by simpa using ho)]
        exact ih

theorem QProcessEnvironment.value_insert_same (env : QProcessEnvironment)
    (name value : String) :
    QProcessEnvironment.value (QProcessEnvironment.insert env name value) name = some value := by
  simp [QProcessEnvironment.value, QProcessEnvironment.insert]

theorem QProcessEnvironment.value_insert_other (env : QProcessEnvironment)
    (name value other : String) (h : other ≠ name) :
    QProcessEnvironment.value (QProcessEnvironment.insert env name value) other =
      QProcessEnvironment.value env other := by
  have hn : ¬ name = other := fun e => h e.symm
  simp only [QProcessEnvironment.value, QProcessEnvironment.insert, List.find?_cons]
  simp only [hn, decide_False]
  rw [QProcessEnvironment.find_filter_ne env name other h]

/-! ## The claims -/

/-- C1: on a decoded response whose `success` is "true", `authenticationLoop`
returns after exactly these events: two log lines, the completion message and
one `startGame` whose arguments are the response's `cookie` and `gameserver`
strings as they are.  It makes no Transport call and leaves the timer as it
was, so with no timer active the event loop has nothing more to run. -/
theorem success_launches_game_once (fuel n : Nat) (s : LoginWorker)
    (h : s.jsonObject.str "success" = "true") (ht : s.timer = none) :
    authenticationLoop fromJson (fuel + 1) s = .returned { s with trace := s.trace ++
      [.log ["Authenticated fully and starting game!"],
       .log ["Play cookie:", s.jsonObject.str "cookie", "Game server:",
         s.jsonObject.str "gameserver"],
       .sendMessage "Authentication complete. Starting game now.",
       .startGame (s.jsonObject.str "cookie") (s.jsonObject.str "gameserver")] } ∧
    exec fromJson n { s with trace := s.trace ++
      [.log ["Authenticated fully and starting game!"],
       .log ["Play cookie:", s.jsonObject.str "cookie", "Game server:",
         s.jsonObject.str "gameserver"],
       .sendMessage "Authentication complete. Starting game now.",
       .startGame (s.jsonObject.str "cookie") (s.jsonObject.str "gameserver")] } =
      .returned { s with trace := s.trace ++
      [.log ["Authenticated fully and starting game!"],
       .log ["Play cookie:", s.jsonObject.str "cookie", "Game server:",
         s.jsonObject.str "gameserver"],
       .sendMessage "Authentication complete. Starting game now.",
       .startGame (s.jsonObject.str "cookie") (s.jsonObject.str "gameserver")] } :=
  ⟨authenticationLoop_success fromJson fuel s h, exec_idle fromJson n _ ht⟩

/-- C2: on a response whose `success` is "false" or anything other than
"partial", "delayed" and "true", `authenticationLoop` returns having emitted
one `sendMessage`, carrying the response's `banner`, and `authenticationFailed`
once; it does not call `startGame`, makes no Transport call and does not start
the timer, and the event loop has nothing more to run. -/
theorem failure_ends_the_run (fuel n : Nat) (s : LoginWorker)
    (h2 : s.jsonObject.str "success" ≠ "partial")
    (h3 : s.jsonObject.str "success" ≠ "delayed")
    (h4 : s.jsonObject.str "success" ≠ "true") (ht : s.timer = none) :
    ∃ evs : List Event,
      authenticationLoop fromJson (fuel + 1) s = .returned { s with trace := s.trace ++ evs } ∧
      messages evs = [s.jsonObject.str "banner"] ∧
      evs.countP Event.isAuthenticationFailed = 1 ∧
      evs.countP Event.isStartGame = 0 ∧
      evs.countP Event.isPost = 0 ∧
      evs.countP Event.isTimerStart = 0 ∧
      exec fromJson n { s with trace := s.trace ++ evs } =
        .returned { s with trace := s.trace ++ evs } := by
  by_cases h1 : s.jsonObject.str "success" = "false"
  · exact ⟨_, authenticationLoop_rejected fromJson fuel s h1, by simp [messages],
      by simp [List.countP_cons, Event.isAuthenticationFailed],
      by simp [List.countP_cons, Event.isStartGame],
      by simp [List.countP_cons, Event.isPost],
      by simp [List.countP_cons, Event.isTimerStart], exec_idle fromJson n _ ht⟩
  · exact ⟨_, authenticationLoop_unknown fromJson fuel s h1 h2 h3 h4, by simp [messages],
      by simp [List.countP_cons, Event.isAuthenticationFailed],
      by simp [List.countP_cons, Event.isStartGame],
      by simp [List.countP_cons, Event.isPost],
      by simp [List.countP_cons, Event.isTimerStart], exec_idle fromJson n _ ht⟩

/-- The witness of C1: the body with `success` "true", cookie "C1" and game
server "G1" gives a single launch with ("C1", "G1"). -/
theorem success_launches_game_once_witness :
    ({ jsonObject := (sampleFromJson bodySuccess).object } : LoginWorker).jsonObject.str
        "success" = "true" ∧
    ({ jsonObject := (sampleFromJson bodySuccess).object } : LoginWorker).timer = none ∧
    authenticationLoop sampleFromJson 1 { jsonObject := (sampleFromJson bodySuccess).object } =
      .returned { jsonObject := (sampleFromJson bodySuccess).object, trace :=
        [.log ["Authenticated fully and starting game!"],
         .log ["Play cookie:", "C1", "Game server:", "G1"],
         .sendMessage "Authentication complete. Starting game now.",
         .startGame "C1" "G1"] } ∧
    exec sampleFromJson 5 { jsonObject := (sampleFromJson bodySuccess).object, trace :=
        [.log ["Authenticated fully and starting game!"],
         .log ["Play cookie:", "C1", "Game server:", "G1"],
         .sendMessage "Authentication complete. Starting game now.",
         .startGame "C1" "G1"] } =
      .returned { jsonObject := (sampleFromJson bodySuccess).object, trace :=
        [.log ["Authenticated fully and starting game!"],
         .log ["Play cookie:", "C1", "Game server:", "G1"],
         .sendMessage "Authentication complete. Starting game now.",
         .startGame "C1" "G1"] } :=
  ⟨by decide, rfl,
    success_launches_game_once sampleFromJson 0 5
      { jsonObject := (sampleFromJson bodySuccess).object } (by decide) rfl⟩

/-- The witness of C2: the body with `success` "false" and banner "nope". -/
theorem failure_ends_the_run_witness :
    ({ jsonObject := (sampleFromJson bodyFalseNope).object } : LoginWorker).jsonObject.str
        "success" ≠ "partial" ∧
    ({ jsonObject := (sampleFromJson bodyFalseNope).object } : LoginWorker).jsonObject.str
        "success" ≠ "delayed" ∧
    ({ jsonObject := (sampleFromJson bodyFalseNope).object } : LoginWorker).jsonObject.str
        "success" ≠ "true" ∧
    ∃ evs : List Event,
      authenticationLoop sampleFromJson 1 { jsonObject := (sampleFromJson bodyFalseNope).object } =
        .returned { jsonObject := (sampleFromJson bodyFalseNope).object, trace := [] ++ evs } ∧
      messages evs = ["nope"] ∧
      evs.countP Event.isAuthenticationFailed = 1 ∧
      evs.countP Event.isStartGame = 0 ∧
      evs.countP Event.isPost = 0 ∧
      evs.countP Event.isTimerStart = 0 ∧
      exec sampleFromJson 5
          { jsonObject := (sampleFromJson bodyFalseNope).object, trace := [] ++ evs } =
        .returned { jsonObject := (sampleFromJson bodyFalseNope).object, trace := [] ++ evs } :=
  ⟨by decide, by decide, by decide,
    failure_ends_the_run sampleFromJson 0 5
      { jsonObject := (sampleFromJson bodyFalseNope).object }
      (by decide) (by decide) (by decide) rfl⟩

/-- C3, the code at the sequence partial(A1), partial(A2), false("nope") with
the user tokens "111" and "222": two prompts are issued, the failure message
"nope" is emitted and the game is not started, but the second retry carries
the `authToken` "A1" of the first partial response, not the "A2" of the most
recent one: `authToken` is stored by `authenticationLoop` only, and the loop
of `startTwoFactorAuthentication` decodes the new response without storing
its `responseToken`. -/
theorem second_retry_carries_first_token :
    (login sampleFromJson [bodyPartialA1, bodyPartialA2, bodyFalseNope] ["111", "222"]
      "user" "pw").state.trace =
      [.sendMessage "Sending credentials to the TTR Servers",
       .post [("username", "user"), ("password", "pw")],
       .sendMessage "Enter token",
       .log ["Partial authentication: starting 2 factor authentication."],
       .prompt "Enter token",
       .post [("appToken", "111"), ("authToken", "A1")],
       .sendMessage "Try again",
       .log ["Partial authentication: starting 2 factor authentication."],
       .prompt "Try again",
       .post [("appToken", "222"), ("authToken", "A1")],
       .sendMessage "nope",
       .log ["Login failed:", "nope"],
       .authenticationFailed] := by
  decide!

/-- C4, the code at the same sequence: the request that follows the second
partial response (whose `responseToken` is "A2") carries the user's token
"222" as `appToken` but "A1" as `authToken`. -/
theorem request_after_second_challenge :
    (sampleFromJson bodyPartialA2).object.str "success" = "partial" ∧
    (sampleFromJson bodyPartialA2).object.str "responseToken" = "A2" ∧
    posts (login sampleFromJson [bodyPartialA1, bodyPartialA2, bodyFalseNope] ["111", "222"]
      "user" "pw").state.trace =
      [[("username", "user"), ("password", "pw")],
       [("appToken", "111"), ("authToken", "A1")],
       [("appToken", "222"), ("authToken", "A1")]] := by
  decide!

/-- C5: when the token received in a two-factor round is "cancel", however many
rounds (`pre`, each answered by another "partial" response) came before it,
`startTwoFactorAuthentication` returns right after the message "Cancelling
login." and its log line: the replies still to come are untouched (no Transport
call follows), `startGame` and `authenticationFailed` occur nowhere in the
call, and the event loop has nothing more to run. -/
theorem cancel_stops_the_run (fuel n : Nat) (pre : List String) (bodies : List QByteArray)
    (s : LoginWorker) (rest : List String) (more : List QByteArray)
    (hlen : pre.length = bodies.length)
    (hpre : ∀ tok ∈ pre, tok ≠ "cancel")
    (hbodies : ∀ b ∈ bodies, (fromJson b).object.str "success" = "partial")
    (hs : s.jsonObject.str "success" = "partial")
    (htok : s.tokens = pre ++ "cancel" :: rest)
    (hrep : s.replies = bodies ++ more)
    (ht : s.timer = none) :
    ∃ (t : LoginWorker) (evs : List Event),
      startTwoFactorAuthentication fromJson (fuel + 1) s = .returned t ∧
      t.trace = s.trace ++ evs ++
        [.sendMessage (t.jsonObject.str "banner"),
         .log ["Partial authentication: starting 2 factor authentication."],
         .prompt (t.jsonObject.str "banner"),
         .sendMessage "Cancelling login.",
         .log ["Cancelling two factor authentication\n"]] ∧
      (posts evs).length = pre.length ∧
      evs.countP Event.isPrompt = pre.length ∧
      evs.countP Event.isStartGame = 0 ∧
      evs.countP Event.isAuthenticationFailed = 0 ∧
      t.replies = more ∧ t.tokens = rest ∧
      exec fromJson n t = .returned t := by
  obtain ⟨t, evs, h1, h2, _, h4, _, _, h7, h8, h9, h10, h11, h12, _⟩ :=
    twoFactorWhile_rounds fromJson pre bodies s ("cancel" :: rest) more hlen hpre hbodies hs
      htok hrep
  refine ⟨{ t with
      receivedToken := "cancel"
      tokens := rest
      trace := t.trace ++
        [.sendMessage (t.jsonObject.str "banner"),
         .log ["Partial authentication: starting 2 factor authentication."],
         .prompt (t.jsonObject.str "banner"),
         .sendMessage "Cancelling login.",
         .log ["Cancelling two factor authentication\n"]] },
    evs, ?_, ?_, ?_, h10, h11, h12, ?_, ?_, ?_⟩
  · rw [startTwoFactorAuthentication_succ, htok, h1, twoFactorWhile_cancel fromJson rest t [] [] h2]
  · simp [h8]
  · rw [h9, List.length_map]
  · exact h4
  · rfl
  · exact exec_idle fromJson n _ (by simpa [ht] using h7)

/-- The witness of C5: one round with the token "111", answered by a second
challenge, then "cancel". -/
theorem cancel_stops_the_run_witness :
    ["111"].length = [bodyPartialA2].length ∧
    (∀ tok ∈ ["111"], tok ≠ "cancel") ∧
    (∀ b ∈ [bodyPartialA2], (sampleFromJson b).object.str "success" = "partial") ∧
    (sampleFromJson bodyPartialA1).object.str "success" = "partial" ∧
    ∃ (t : LoginWorker) (evs : List Event),
      startTwoFactorAuthentication sampleFromJson 1
        { jsonObject := (sampleFromJson bodyPartialA1).object, authToken := "A1",
          tokens := ["111", "cancel"], replies := [bodyPartialA2, bodySuccess] } = .returned t ∧
      t.trace = [] ++ evs ++
        [.sendMessage (t.jsonObject.str "banner"),
         .log ["Partial authentication: starting 2 factor authentication."],
         .prompt (t.jsonObject.str "banner"),
         .sendMessage "Cancelling login.",
         .log ["Cancelling two factor authentication\n"]] ∧
      (posts evs).length = ["111"].length ∧
      evs.countP Event.isPrompt = ["111"].length ∧
      evs.countP Event.isStartGame = 0 ∧
      evs.countP Event.isAuthenticationFailed = 0 ∧
      t.replies = [bodySuccess] ∧ t.tokens = [] ∧
      exec sampleFromJson 5 t = .returned t :=
  ⟨rfl, by decide, by decide, by decide,
    cancel_stops_the_run sampleFromJson 0 5 ["111"] [bodyPartialA2]
      { jsonObject := (sampleFromJson bodyPartialA1).object, authToken := "A1",
        tokens := ["111", "cancel"], replies := [bodyPartialA2, bodySuccess] } [] [bodySuccess]
      rfl (by decide) (by decide) (by decide) rfl rfl rfl⟩

/-- C6: on a response whose `success` is "delayed", `authenticationLoop` itself
makes no Transport call: it logs, sends the queue message, stores the
response's `queueToken` and starts the timer with 500 ms, then returns.  When
the event loop fires that timer, the first thing `timerFinished` does after
its log line is the request whose only field is `queueToken`, with exactly the
`queueToken` string of that response. -/
theorem delayed_arms_timer_then_polls (fuel n : Nat) (s : LoginWorker)
    (h : s.jsonObject.str "success" = "delayed") :
    authenticationLoop fromJson (fuel + 1) s = .returned { s with
      lineToken := s.jsonObject.str "queueToken"
      timer := some 500
      trace := s.trace ++
        [.log ["Waiting in queue. ETA:", s.jsonObject.str "eta", ", Position in line:",
           s.jsonObject.str "position"],
         .sendMessage ("Waiting in queue. ETA: " ++ s.jsonObject.str "eta"
           ++ ", Position in line: " ++ s.jsonObject.str "position"),
         .timerStart 500] } ∧
    ∃ evs : List Event,
      (exec fromJson (n + 1) { s with
        lineToken := s.jsonObject.str "queueToken"
        timer := some 500
        trace := s.trace ++
          [.log ["Waiting in queue. ETA:", s.jsonObject.str "eta", ", Position in line:",
             s.jsonObject.str "position"],
           .sendMessage ("Waiting in queue. ETA: " ++ s.jsonObject.str "eta"
             ++ ", Position in line: " ++ s.jsonObject.str "position"),
           .timerStart 500] }).state.trace =
      s.trace ++
        [.log ["Waiting in queue. ETA:", s.jsonObject.str "eta", ", Position in line:",
           s.jsonObject.str "position"],
         .sendMessage ("Waiting in queue. ETA: " ++ s.jsonObject.str "eta"
           ++ ", Position in line: " ++ s.jsonObject.str "position"),
         .timerStart 500,
         .log ["Queued authentication: checking where we stand in line again."],
         .post [("queueToken", s.jsonObject.str "queueToken")]] ++ evs := by
  refine ⟨authenticationLoop_delayed fromJson fuel s h, ?_⟩
  obtain ⟨evs, he⟩ := exec_fire_trace fromJson n 500 { s with
        lineToken := s.jsonObject.str "queueToken"
        timer := some 500
        trace := s.trace ++
          [.log ["Waiting in queue. ETA:", s.jsonObject.str "eta", ", Position in line:",
             s.jsonObject.str "position"],
           .sendMessage ("Waiting in queue. ETA: " ++ s.jsonObject.str "eta"
             ++ ", Position in line: " ++ s.jsonObject.str "position"),
           .timerStart 500] } rfl
  exact ⟨evs, by rw [he]; simp⟩

/-- The witness of C6: the delayed body with queue token "Q1". -/
theorem delayed_arms_timer_then_polls_witness :
    (sampleFromJson bodyDelayedQ1).object.str "success" = "delayed" ∧
    authenticationLoop sampleFromJson 1
        { jsonObject := (sampleFromJson bodyDelayedQ1).object, replies := [bodySuccess] } =
      .returned
      { jsonObject := (sampleFromJson bodyDelayedQ1).object, replies := [bodySuccess],
        lineToken := "Q1", timer := some 500, trace := [] ++
        [.log ["Waiting in queue. ETA:", "5", ", Position in line:", "10"],
         .sendMessage ("Waiting in queue. ETA: " ++ "5" ++ ", Position in line: " ++ "10"),
         .timerStart 500] } ∧
    ∃ evs : List Event,
      (exec sampleFromJson 2
        { jsonObject := (sampleFromJson bodyDelayedQ1).object, replies := [bodySuccess],
          lineToken := "Q1", timer := some 500, trace := [] ++
          [.log ["Waiting in queue. ETA:", "5", ", Position in line:", "10"],
           .sendMessage ("Waiting in queue. ETA: " ++ "5" ++ ", Position in line: " ++ "10"),
           .timerStart 500] }).state.trace =
      [] ++
        [.log ["Waiting in queue. ETA:", "5", ", Position in line:", "10"],
         .sendMessage ("Waiting in queue. ETA: " ++ "5" ++ ", Position in line: " ++ "10"),
         .timerStart 500,
         .log ["Queued authentication: checking where we stand in line again."],
         .post [("queueToken", "Q1")]] ++ evs :=
  ⟨by decide,
    delayed_arms_timer_then_polls sampleFromJson 0 1
      { jsonObject := (sampleFromJson bodyDelayedQ1).object, replies := [bodySuccess] }
      (by decide)⟩

/-- C7: for every list `ds` of delayed responses followed by a response with
`success` "true", the run returns with exactly this trace: the credentials
request, then for each delayed response in order its queue message, the start
of the 500 ms timer and the re-poll carrying that response's `queueToken`, then
the launch of the game with the `cookie` and `gameserver` of the last
response.  So there are `ds.length` timer starts and re-polls, carrying the
queue tokens in order, and one `startGame`. -/
theorem queue_then_launch (ds : List QByteArray) (final : QByteArray)
    (rest : List QByteArray) (tokens : List String) (username password : String)
    (hds : ∀ b ∈ ds, (fromJson b).object.str "success" = "delayed")
    (hfin : (fromJson final).object.str "success" = "true") :
    ∃ t : LoginWorker,
      login fromJson (ds ++ final :: rest) tokens username password = .returned t ∧
      t.trace =
        [.sendMessage "Sending credentials to the TTR Servers",
         .post [("username", username), ("password", password)]] ++
        queueTrace fromJson ds ++ launchEvents (fromJson final).object ∧
      posts t.trace = [("username", username), ("password", password)] ::
        ds.map (fun b => [("queueToken", (fromJson b).object.str "queueToken")]) ∧
      t.trace.countP Event.isTimerStart = ds.length ∧
      t.trace.countP Event.isStartGame = 1 ∧
      t.trace.countP Event.isAuthenticationFailed = 0 ∧
      t.replies = rest := by
  have key : ∃ t : LoginWorker,
      login fromJson (ds ++ final :: rest) tokens username password = .returned t ∧
      t.trace =
        [.sendMessage "Sending credentials to the TTR Servers",
         .post [("username", username), ("password", password)]] ++
        queueTrace fromJson ds ++ launchEvents (fromJson final).object ∧
      t.replies = rest := by
    unfold login
    cases ds with
    | nil =>
      rw [List.nil_append, initiateLogin_reply fromJson 3 _ username password final rest rfl,
        authenticationLoop_success fromJson 2 _ hfin]
      exact ⟨_, exec_idle fromJson _ _ rfl, by simp [queueTrace, launchEvents], rfl⟩
    | cons d ds =>
      have hd : (fromJson d).object.str "success" = "delayed" := hds d (by simp)
      rw [List.cons_append,
        initiateLogin_reply fromJson 3 _ username password d (ds ++ final :: rest) rfl,
        authenticationLoop_delayed fromJson 2 _ hd]
      obtain ⟨t, h1, h2, h3, _, _⟩ := exec_queue fromJson final rest hfin ds
        { jsonObject := (fromJson d).object
          replies := ds ++ final :: rest
          tokens := tokens
          lineToken := (fromJson d).object.str "queueToken"
          timer := some 500
          trace := [] ++
            [.sendMessage "Sending credentials to the TTR Servers",
             .post [("username", username), ("password", password)]] ++
            [.log ["Waiting in queue. ETA:", (fromJson d).object.str "eta",
               ", Position in line:", (fromJson d).object.str "position"],
             .sendMessage ("Waiting in queue. ETA: " ++ (fromJson d).object.str "eta"
               ++ ", Position in line: " ++ (fromJson d).object.str "position"),
             .timerStart 500] }
        (d :: (ds ++ final :: rest)).length 500 rfl rfl
        (by simp only [List.length_cons, List.length_append]; omega)
        (fun b hb => hds b (by simp [hb]))
      refine ⟨t, h1, ?_, h3⟩
      rw [h2]
      simp [queueTrace, queueRound]
  obtain ⟨t, h1, h2, h3⟩ := key
  obtain ⟨c1, c2, c3, _⟩ := countP_queueTrace fromJson ds
  refine ⟨t, h1, h2, ?_, ?_, ?_, ?_, h3⟩
  · rw [h2, posts_append, posts_append, posts_queueTrace]
    simp [posts, launchEvents]
  · rw [h2, List.countP_append, List.countP_append, c1]
    simp [List.countP_cons, Event.isTimerStart, launchEvents]
  · rw [h2, List.countP_append, List.countP_append, c2]
    simp [List.countP_cons, Event.isStartGame, launchEvents]
  · rw [h2, List.countP_append, List.countP_append, c3]
    simp [List.countP_cons, Event.isAuthenticationFailed, launchEvents]

/-- The witness of C7: delayed(Q1), delayed(Q2), true(X, Y). -/
theorem queue_then_launch_witness :
    (∀ b ∈ [bodyDelayedQ1, bodyDelayedQ2], (sampleFromJson b).object.str "success" = "delayed") ∧
    (sampleFromJson bodySuccessXY).object.str "success" = "true" ∧
    ∃ t : LoginWorker,
      login sampleFromJson ([bodyDelayedQ1, bodyDelayedQ2] ++ bodySuccessXY :: []) []
        "user" "pw" = .returned t ∧
      t.trace =
        [.sendMessage "Sending credentials to the TTR Servers",
         .post [("username", "user"), ("password", "pw")]] ++
        [.log ["Waiting in queue. ETA:", "5", ", Position in line:", "10"],
         .sendMessage "Waiting in queue. ETA: 5, Position in line: 10",
         .timerStart 500,
         .log ["Queued authentication: checking where we stand in line again."],
         .post [("queueToken", "Q1")],
         .log ["Waiting in queue. ETA:", "2", ", Position in line:", "3"],
         .sendMessage "Waiting in queue. ETA: 2, Position in line: 3",
         .timerStart 500,
         .log ["Queued authentication: checking where we stand in line again."],
         .post [("queueToken", "Q2")]] ++
        [.log ["Authenticated fully and starting game!"],
         .log ["Play cookie:", "X", "Game server:", "Y"],
         .sendMessage "Authentication complete. Starting game now.",
         .startGame "X" "Y"] ∧
      posts t.trace = [("username", "user"), ("password", "pw")] ::
        [[("queueToken", "Q1")], [("queueToken", "Q2")]] ∧
      t.trace.countP Event.isTimerStart = 2 ∧
      t.trace.countP Event.isStartGame = 1 ∧
      t.trace.countP Event.isAuthenticationFailed = 0 ∧
      t.replies = [] :=
  ⟨by decide, by decide,
    queue_then_launch sampleFromJson [bodyDelayedQ1, bodyDelayedQ2] bodySuccessXY [] []
      "user" "pw" (by decide) (by decide)⟩

/-- C9, the claim fails for a well-formed object that lacks `success`: the body
with the single member "banner": "x" is decoded to an object that is not
empty, and the failure notification carries "x", not an empty banner. -/
theorem banner_survives_without_status :
    (sampleFromJson bodyBannerOnly).object.contains "success" = false ∧
    (sampleFromJson bodyBannerOnly).object.length = 1 ∧
    (login sampleFromJson [bodyBannerOnly] [] "user" "pw").state.trace =
      [.sendMessage "Sending credentials to the TTR Servers",
       .post [("username", "user"), ("password", "pw")],
       .log ["Unable to authenticate.  Error:", "x"],
       .sendMessage "x",
       .authenticationFailed] := by
  decide!

/-- C9 as amended: a body that is not a JSON object (the empty body of a failed
transport included) is decoded to the empty object, which has no `success` and
an empty `banner`.  Whenever the decoded object has no `success` member, each
of the three decode sites (initial login, two-factor retry, queue re-poll)
returns after the log line, a `sendMessage` carrying the `banner` string of
the decoded object (empty when there is none) and `authenticationFailed`;
`startGame` is not called and nothing is raised. -/
theorem statusless_response_fails (body : QByteArray) :
    ((∀ members : QJsonObject, fromJson body ≠ .ofObject members) →
      (fromJson body).object = [] ∧
      (fromJson body).object.contains "success" = false ∧
      (fromJson body).object.str "banner" = "") ∧
    ((fromJson body).object.contains "success" = false →
      ∀ (fuel : Nat) (s : LoginWorker) (more : List QByteArray), s.replies = body :: more →
        (∀ username password : String,
          initiateLogin fromJson (fuel + 1) s username password = .returned { s with
            jsonObject := (fromJson body).object
            replies := more
            trace := s.trace ++
              [.sendMessage "Sending credentials to the TTR Servers",
               .post [("username", username), ("password", password)]] ++
              unknownEvents (fromJson body).object }) ∧
        (timerFinished fromJson (fuel + 1) s = .returned { s with
            jsonObject := (fromJson body).object
            replies := more
            trace := s.trace ++
              [.log ["Queued authentication: checking where we stand in line again."],
               .post [("queueToken", s.lineToken)]] ++
              unknownEvents (fromJson body).object }) ∧
        (∀ (token : String) (rest : List String), s.jsonObject.str "success" = "partial" →
          s.tokens = token :: rest → token ≠ "cancel" →
          startTwoFactorAuthentication fromJson (fuel + 2) s = .returned { s with
            jsonObject := (fromJson body).object
            receivedToken := token
            tokens := rest
            replies := more
            trace := s.trace ++
              [.sendMessage (s.jsonObject.str "banner"),
               .log ["Partial authentication: starting 2 factor authentication."],
               .prompt (s.jsonObject.str "banner"),
               .post [("appToken", token), ("authToken", s.authToken)],
               .log ["Two Factor authentication complete"]] ++
              unknownEvents (fromJson body).object })) := by
  refine ⟨fun hno => ?_, fun hc fuel s more hr => ?_⟩
  · have he := QJsonDocument.object_of_not_object (fromJson body) hno
    rw [he]
    exact ⟨rfl, rfl, rfl⟩
  · have hs := QJsonObject.str_of_not_contains _ _ hc
    have h1 : (fromJson body).object.str "success" ≠ "false" := by rw [hs]; decide
    have h2 : (fromJson body).object.str "success" ≠ "partial" := by rw [hs]; decide
    have h3 : (fromJson body).object.str "success" ≠ "delayed" := by rw [hs]; decide
    have h4 : (fromJson body).object.str "success" ≠ "true" := by rw [hs]; decide
    refine ⟨fun username password => ?_, ?_, fun token rest hp htok hcancel => ?_⟩
    · rw [initiateLogin_reply fromJson _ s username password body more hr,
        authenticationLoop_unknown fromJson fuel _ h1 h2 h3 h4]
      simp [unknownEvents]
    · rw [timerFinished_reply fromJson _ s body more hr,
        authenticationLoop_unknown fromJson fuel _ h1 h2 h3 h4]
      simp [unknownEvents]
    · rw [startTwoFactorAuthentication_succ, htok,
        twoFactorWhile_retry fromJson token rest s body more hp hcancel hr,
        twoFactorWhile_exit fromJson rest _ [] [] h2]
      simp only [ne_eq, h1, not_false_eq_true, if_true]
      rw [authenticationLoop_unknown fromJson fuel _ h1 h2 h3 h4]
      simp [unknownEvents, emit]

/-- The witness of the amended C9: the empty body at each of the three decode
sites. -/
theorem statusless_response_fails_witness :
    (∀ members : QJsonObject, sampleFromJson "" ≠ .ofObject members) ∧
    ((sampleFromJson "").object = [] ∧
      (sampleFromJson "").object.contains "success" = false ∧
      (sampleFromJson "").object.str "banner" = "") ∧
    (initiateLogin sampleFromJson 1 { replies := ["", bodySuccess] } "user" "pw" =
      .returned
      { jsonObject := (sampleFromJson "").object, replies := [bodySuccess],
        trace := [] ++
          [.sendMessage "Sending credentials to the TTR Servers",
           .post [("username", "user"), ("password", "pw")]] ++
          unknownEvents (sampleFromJson "").object }) ∧
    (timerFinished sampleFromJson 1 { replies := [""], lineToken := "Q1" } =
      .returned
      { jsonObject := (sampleFromJson "").object, replies := [], lineToken := "Q1",
        trace := [] ++
          [.log ["Queued authentication: checking where we stand in line again."],
           .post [("queueToken", "Q1")]] ++
          unknownEvents (sampleFromJson "").object }) ∧
    (startTwoFactorAuthentication sampleFromJson 2
        { jsonObject := (sampleFromJson bodyPartialA1).object, authToken := "A1",
          tokens := ["111"], replies := [""] } =
      .returned
      { jsonObject := (sampleFromJson "").object, authToken := "A1", receivedToken := "111",
        tokens := [], replies := [],
        trace := [] ++
          [.sendMessage "Enter token",
           .log ["Partial authentication: starting 2 factor authentication."],
           .prompt "Enter token",
           .post [("appToken", "111"), ("authToken", "A1")],
           .log ["Two Factor authentication complete"]] ++
          unknownEvents (sampleFromJson "").object }) :=
  ⟨sampleFromJson_empty_not_object,
    (statusless_response_fails sampleFromJson "").1 sampleFromJson_empty_not_object,
    ((statusless_response_fails sampleFromJson "").2 (by decide) 0
      { replies := ["", bodySuccess] } [bodySuccess] rfl).1 "user" "pw",
    ((statusless_response_fails sampleFromJson "").2 (by decide) 0
      { replies := [""], lineToken := "Q1" } [] rfl).2.1,
    ((statusless_response_fails sampleFromJson "").2 (by decide) 0
      { jsonObject := (sampleFromJson bodyPartialA1).object, authToken := "A1",
        tokens := ["111"], replies := [""] } [] rfl).2.2 "111" [] (by decide) rfl (by decide)⟩

/-- C10: the branch `authenticationLoop` takes is the variant the
specification assigns to the string value of `success`, compared exactly:
"false" rejects, "partial" enters the two-factor loop, "delayed" queues, "true"
launches, and every other value is handled as unknown; one branch for every
response.  A `success` value that is not a JSON string reads as the empty
string and so is unknown, as is "True"; the unknown branch does not start the
game. -/
theorem dispatch_on_exact_status (fuel : Nat) (s : LoginWorker) :
    authenticationLoop fromJson (fuel + 1) s =
      (match specStatus (s.jsonObject.str "success") with
      | .rejected => .returned { s with trace := s.trace ++
          [.sendMessage (s.jsonObject.str "banner"),
           .log ["Login failed:", s.jsonObject.str "banner"],
           .authenticationFailed] }
      | .partialTwoFactor => startTwoFactorAuthentication fromJson fuel
          { s with authToken := s.jsonObject.str "responseToken" }
      | .delayed => .returned { s with
          lineToken := s.jsonObject.str "queueToken"
          timer := some 500
          trace := s.trace ++
            [.log ["Waiting in queue. ETA:", s.jsonObject.str "eta", ", Position in line:",
               s.jsonObject.str "position"],
             .sendMessage ("Waiting in queue. ETA: " ++ s.jsonObject.str "eta"
               ++ ", Position in line: " ++ s.jsonObject.str "position"),
             .timerStart 500] }
      | .success => .returned { s with trace := s.trace ++ launchEvents s.jsonObject }
      | .unknown => .returned { s with trace := s.trace ++ unknownEvents s.jsonObject }) ∧
    (∀ v : QJsonValue, (∀ str : String, v ≠ .string str) →
      specStatus v.toString = .unknown) ∧
    specStatus "True" = .unknown ∧
    (unknownEvents s.jsonObject).countP Event.isStartGame = 0 := by
  refine ⟨?_, fun v hv => ?_, by decide, by simp [unknownEvents, Event.isStartGame]⟩
  · by_cases h1 : s.jsonObject.str "success" = "false"
    · have hs : specStatus (s.jsonObject.str "success") = .rejected := by
        simp [specStatus, h1]
      rw [hs, authenticationLoop_rejected fromJson fuel s h1]
    · by_cases h2 : s.jsonObject.str "success" = "partial"
      · have hs : specStatus (s.jsonObject.str "success") = .partialTwoFactor := by
          simp [specStatus, h2]
        rw [hs, authenticationLoop_twoFactor fromJson fuel s h2]
      · by_cases h3 : s.jsonObject.str "success" = "delayed"
        · have hs : specStatus (s.jsonObject.str "success") = .delayed := by
            simp [specStatus, h3]
          rw [hs, authenticationLoop_delayed fromJson fuel s h3]
        · by_cases h4 : s.jsonObject.str "success" = "true"
          · have hs : specStatus (s.jsonObject.str "success") = .success := by
              simp [specStatus, h4]
            rw [hs, authenticationLoop_success fromJson fuel s h4]
            rfl
          · have hs : specStatus (s.jsonObject.str "success") = .unknown := by
              simp [specStatus, h1, h2, h3, h4]
            rw [hs, authenticationLoop_unknown fromJson fuel s h1 h2 h3 h4]
            rfl
  · have ht : v.toString = "" := by
      cases v with
      | string str => exact absurd rfl (hv str)
      | null => rfl
      | bool b => rfl
      | double d => rfl
      | array items => rfl
      | object members => rfl
      | undefined => rfl
    rw [ht]
    decide

/-- The witness of C10: the body whose `success` is the boolean true is
dispatched as unknown and ends in failure without a launch. -/
theorem dispatch_on_exact_status_witness :
    authenticationLoop sampleFromJson 1
        { jsonObject := (sampleFromJson bodyBoolSuccess).object } =
      .returned { jsonObject := (sampleFromJson bodyBoolSuccess).object, trace := [] ++
        [.log ["Unable to authenticate.  Error:", ""],
         .sendMessage "",
         .authenticationFailed] } ∧
    (∀ str : String, QJsonValue.bool true ≠ .string str) ∧
    specStatus (QJsonValue.bool true).toString = .unknown :=
  ⟨(dispatch_on_exact_status sampleFromJson 0
      { jsonObject := (sampleFromJson bodyBoolSuccess).object }).1,
    fun _ h => QJsonValue.noConfusion h,
    (dispatch_on_exact_status sampleFromJson 0 { }).2.1 (.bool true)
      (fun _ h => QJsonValue.noConfusion h)⟩

/-- C11, the claim fails: the event emitted when the game finishes is the same
for the exit codes 3 and 0; it is `gameFinished` with no exit code in it. -/
theorem exit_code_not_relayed :
    (3 : Int) ≠ 0 ∧
    (gameHasFinished { } 3).trace = [.gameFinished] ∧
    (gameHasFinished { } 0).trace = [.gameFinished] ∧
    (gameHasFinished { } 3).trace = (gameHasFinished { } 0).trace := by
  decide

/-- C11 as amended: when the game process finishes with exit code `c`, the
worker emits the signal `gameFinished()` to its observers, for every `c` and
without interpreting it; the signal carries no exit code, so the worker does
the same for every exit code. -/
theorem game_finished_is_signalled (s : LoginWorker) (c : Int) :
    gameHasFinished s c = { s with trace := s.trace ++ [.gameFinished] } ∧
    ∀ c2 : Int, gameHasFinished s c = gameHasFinished s c2 :=
  ⟨rfl, fun _ => rfl⟩

/-- C12: for every cookie, game server and system environment `E`, the
environment `startGame` gives to the game process has TTR_PLAYCOOKIE set to the
cookie and TTR_GAMESERVER set to the game server, whatever `E` held for them,
and agrees with `E` on every other variable. -/
theorem game_environment (FILES_PATH ENGINE_FILENAME : String) (E : QProcessEnvironment)
    (cookie gameServer : String) :
    (startGame FILES_PATH ENGINE_FILENAME E cookie gameServer).processEnvironment.value
        "TTR_PLAYCOOKIE" = some cookie ∧
    (startGame FILES_PATH ENGINE_FILENAME E cookie gameServer).processEnvironment.value
        "TTR_GAMESERVER" = some gameServer ∧
    ∀ name : String, name ≠ "TTR_PLAYCOOKIE" → name ≠ "TTR_GAMESERVER" →
      (startGame FILES_PATH ENGINE_FILENAME E cookie gameServer).processEnvironment.value name =
        E.value name := by
  refine ⟨?_, ?_, fun name h1 h2 => ?_⟩
  · simp only [startGame]
    rw [QProcessEnvironment.value_insert_other _ _ _ _ (by decide),
      QProcessEnvironment.value_insert_same]
  · simp only [startGame]
    rw [QProcessEnvironment.value_insert_same]
  · simp only [startGame]
    rw [QProcessEnvironment.value_insert_other _ _ _ _ h2,
      QProcessEnvironment.value_insert_other _ _ _ _ h1]

/-- The witness of C12: an environment that already holds a play cookie, and
the variable PATH, which is kept. -/
theorem game_environment_witness :
    (startGame "/opt/ttr/" "TTREngine" [("PATH", "/usr/bin"), ("TTR_PLAYCOOKIE", "old")]
        "C1" "G1").processEnvironment.value "TTR_PLAYCOOKIE" = some "C1" ∧
    (startGame "/opt/ttr/" "TTREngine" [("PATH", "/usr/bin"), ("TTR_PLAYCOOKIE", "old")]
        "C1" "G1").processEnvironment.value "TTR_GAMESERVER" = some "G1" ∧
    "PATH" ≠ "TTR_PLAYCOOKIE" ∧ "PATH" ≠ "TTR_GAMESERVER" ∧
    (startGame "/opt/ttr/" "TTREngine" [("PATH", "/usr/bin"), ("TTR_PLAYCOOKIE", "old")]
        "C1" "G1").processEnvironment.value "PATH" =
      QProcessEnvironment.value [("PATH", "/usr/bin"), ("TTR_PLAYCOOKIE", "old")] "PATH" :=
  ⟨(game_environment "/opt/ttr/" "TTREngine" [("PATH", "/usr/bin"), ("TTR_PLAYCOOKIE", "old")]
      "C1" "G1").1,
    (game_environment "/opt/ttr/" "TTREngine" [("PATH", "/usr/bin"), ("TTR_PLAYCOOKIE", "old")]
      "C1" "G1").2.1,
    by decide, by decide,
    (game_environment "/opt/ttr/" "TTREngine" [("PATH", "/usr/bin"), ("TTR_PLAYCOOKIE", "old")]
      "C1" "G1").2.2 "PATH" (by decide) (by decide)⟩

/-- C13: for every user name and password, `initiateLogin` first emits the
progress message and then makes one Transport call whose form body is the two
items `username` and `password`, in that order, with the values it was given;
with no reply it waits there, and with a reply it decodes it and goes on as
`authenticationLoop` does on the decoded object.  When the decoded status is
not "partial" that request is the only one of the call. -/
theorem initiateLogin_posts_credentials (fuel : Nat) (s : LoginWorker)
    (username password : String) :
    (s.replies = [] →
      initiateLogin fromJson fuel s username password = .waiting { s with trace := s.trace ++
        [.sendMessage "Sending credentials to the TTR Servers",
         .post [("username", username), ("password", password)]] }) ∧
    (∀ (body : QByteArray) (more : List QByteArray), s.replies = body :: more →
      initiateLogin fromJson fuel s username password =
        authenticationLoop fromJson fuel { s with
          jsonObject := (fromJson body).object
          replies := more
          trace := s.trace ++
            [.sendMessage "Sending credentials to the TTR Servers",
             .post [("username", username), ("password", password)]] } ∧
      ((fromJson body).object.str "success" ≠ "partial" →
        posts (initiateLogin fromJson (fuel + 1) s username password).state.trace =
          posts s.trace ++ [[("username", username), ("password", password)]])) := by
  refine ⟨fun hr => initiateLogin_noReply fromJson fuel s username password hr,
    fun body more hr => ⟨initiateLogin_reply fromJson fuel s username password body more hr,
      fun hp => ?_⟩⟩
  rw [initiateLogin_reply fromJson (fuel + 1) s username password body more hr]
  by_cases h1 : (fromJson body).object.str "success" = "false"
  · rw [authenticationLoop_rejected fromJson fuel _ h1]
    simp [Outcome.state, posts_append, posts]
  · by_cases h3 : (fromJson body).object.str "success" = "delayed"
    · rw [authenticationLoop_delayed fromJson fuel _ h3]
      simp [Outcome.state, posts_append, posts]
    · by_cases h4 : (fromJson body).object.str "success" = "true"
      · rw [authenticationLoop_success fromJson fuel _ h4]
        simp [Outcome.state, posts_append, posts]
      · rw [authenticationLoop_unknown fromJson fuel _ h1 hp h3 h4]
        simp [Outcome.state, posts_append, posts]

/-- The witness of C13: a login answered by the rejection "nope". -/
theorem initiateLogin_posts_credentials_witness :
    initiateLogin sampleFromJson 1 { replies := [bodyFalseNope] } "user" "pw" =
      authenticationLoop sampleFromJson 1
      { jsonObject := (sampleFromJson bodyFalseNope).object, replies := [],
        trace := [] ++
          [.sendMessage "Sending credentials to the TTR Servers",
           .post [("username", "user"), ("password", "pw")]] } ∧
    (sampleFromJson bodyFalseNope).object.str "success" ≠ "partial" ∧
    posts (initiateLogin sampleFromJson (0 + 1) { replies := [bodyFalseNope] }
        "user" "pw").state.trace =
      posts [] ++ [[("username", "user"), ("password", "pw")]] :=
  ⟨((initiateLogin_posts_credentials sampleFromJson 1 { replies := [bodyFalseNope] }
      "user" "pw").2 bodyFalseNope [] rfl).1,
    by decide,
    ((initiateLogin_posts_credentials sampleFromJson 0 { replies := [bodyFalseNope] }
      "user" "pw").2 bodyFalseNope [] rfl).2 (by decide)⟩

/-- C15: on a delayed response whose `eta` and `position` are strings, the
message sent is "Waiting in queue. ETA: ", the `eta` string, ", Position in
line: " and the `position` string, put together as they are; it is the only
message of the call. -/
theorem queue_message_text (fuel : Nat) (s : LoginWorker) (eta position : String)
    (h : s.jsonObject.str "success" = "delayed")
    (he : s.jsonObject.value "eta" = .string eta)
    (hp : s.jsonObject.value "position" = .string position) :
    ∃ t : LoginWorker, authenticationLoop fromJson (fuel + 1) s = .returned t ∧
      t.trace = s.trace ++
        [.log ["Waiting in queue. ETA:", eta, ", Position in line:", position],
         .sendMessage ("Waiting in queue. ETA: " ++ eta ++ ", Position in line: " ++ position),
         .timerStart 500] := by
  refine ⟨_, authenticationLoop_delayed fromJson fuel s h, ?_⟩
  simp [QJsonObject.str, he, hp, QJsonValue.toString]

/-- The witness of C15: the delayed body with `eta` "5" and `position` "10". -/
theorem queue_message_text_witness :
    (sampleFromJson bodyDelayedQ1).object.str "success" = "delayed" ∧
    (sampleFromJson bodyDelayedQ1).object.value "eta" = .string "5" ∧
    (sampleFromJson bodyDelayedQ1).object.value "position" = .string "10" ∧
    ∃ t : LoginWorker,
      authenticationLoop sampleFromJson 1
        { jsonObject := (sampleFromJson bodyDelayedQ1).object } = .returned t ∧
      t.trace = [] ++
        [.log ["Waiting in queue. ETA:", "5", ", Position in line:", "10"],
         .sendMessage ("Waiting in queue. ETA: " ++ "5" ++ ", Position in line: " ++ "10"),
         .timerStart 500] :=
  ⟨by decide, rfl, rfl,
    queue_message_text sampleFromJson 0 { jsonObject := (sampleFromJson bodyDelayedQ1).object }
      "5" "10" (by decide) rfl rfl⟩

/-- C14, the claim fails on a "delayed" reply to a two-factor retry: the loop is
left through its condition although the status is none of "false", unknown and
"true" and a second token was ready; the run goes on in the queue, with no
second prompt. -/
theorem delayed_reply_leaves_the_loop :
    (twoFactorWhile sampleFromJson ["111", "222"]
      { jsonObject := (sampleFromJson bodyPartialA1).object, authToken := "A1",
        tokens := ["111", "222"], replies := [bodyDelayedQ1] } [] []).isExited = true ∧
    (twoFactorWhile sampleFromJson ["111", "222"]
      { jsonObject := (sampleFromJson bodyPartialA1).object, authToken := "A1",
        tokens := ["111", "222"], replies := [bodyDelayedQ1] } [] []).state.jsonObject.str
        "success" = "delayed" ∧
    (twoFactorWhile sampleFromJson ["111", "222"]
      { jsonObject := (sampleFromJson bodyPartialA1).object, authToken := "A1",
        tokens := ["111", "222"], replies := [bodyDelayedQ1] } [] []).state.tokens = ["222"] ∧
    (login sampleFromJson [bodyPartialA1, bodyDelayedQ1] ["111", "222"]
      "user" "pw").state.trace =
      [.sendMessage "Sending credentials to the TTR Servers",
       .post [("username", "user"), ("password", "pw")],
       .sendMessage "Enter token",
       .log ["Partial authentication: starting 2 factor authentication."],
       .prompt "Enter token",
       .post [("appToken", "111"), ("authToken", "A1")],
       .log ["Two Factor authentication complete"],
       .log ["Waiting in queue. ETA:", "5", ", Position in line:", "10"],
       .sendMessage "Waiting in queue. ETA: 5, Position in line: 10",
       .timerStart 500,
       .log ["Queued authentication: checking where we stand in line again."],
       .post [("queueToken", "Q1")]] := by
  decide!

/-- C14 as amended: the loop of `startTwoFactorAuthentication` goes on to the
next prompt as long as each newly decoded status is again "partial"; it is
left through its condition on every other status ("false", "true", unknown and
also "delayed") and only on such a status, and it is left by `return` on the
token "cancel" and only on it. -/
theorem loop_left_on_every_other_status (s : LoginWorker) (token : String)
    (rest : List String) (body : QByteArray) (more : List QByteArray)
    (h : s.jsonObject.str "success" = "partial") (hr : s.replies = body :: more) :
    (token ≠ "cancel" → (fromJson body).object.str "success" = "partial" →
      twoFactorWhile fromJson (token :: rest) s [] [] =
        twoFactorWhile fromJson rest { s with
          jsonObject := (fromJson body).object
          receivedToken := token
          tokens := rest
          replies := more
          trace := s.trace ++
            [.sendMessage (s.jsonObject.str "banner"),
             .log ["Partial authentication: starting 2 factor authentication."],
             .prompt (s.jsonObject.str "banner"),
             .post [("appToken", token), ("authToken", s.authToken)]] } [] [] ∧
      ∃ evs : List Event,
        (twoFactorWhile fromJson (token :: rest) s [] []).state.trace = s.trace ++
          [.sendMessage (s.jsonObject.str "banner"),
           .log ["Partial authentication: starting 2 factor authentication."],
           .prompt (s.jsonObject.str "banner"),
           .post [("appToken", token), ("authToken", s.authToken)],
           .sendMessage ((fromJson body).object.str "banner"),
           .log ["Partial authentication: starting 2 factor authentication."],
           .prompt ((fromJson body).object.str "banner")] ++ evs) ∧
    (token ≠ "cancel" → (fromJson body).object.str "success" ≠ "partial" →
      twoFactorWhile fromJson (token :: rest) s [] [] = .exited { s with
        jsonObject := (fromJson body).object
        receivedToken := token
        tokens := rest
        replies := more
        trace := s.trace ++
          [.sendMessage (s.jsonObject.str "banner"),
           .log ["Partial authentication: starting 2 factor authentication."],
           .prompt (s.jsonObject.str "banner"),
           .post [("appToken", token), ("authToken", s.authToken)]] }) ∧
    (token = "cancel" →
      (twoFactorWhile fromJson (token :: rest) s [] []).isExited = false ∧
      (twoFactorWhile fromJson (token :: rest) s [] []).state.replies = s.replies) ∧
    (∀ (toks : List String) (t : LoginWorker),
      twoFactorWhile fromJson toks s [] [] = .exited t →
        t.jsonObject.str "success" ≠ "partial") ∧
    (∀ (toks : List String) (t : LoginWorker),
      twoFactorWhile fromJson toks s [] [] = .cancelled t → t.receivedToken = "cancel") := by
  refine ⟨fun hc hb => ⟨twoFactorWhile_retry fromJson token rest s body more h hc hr, ?_⟩,
    fun hc hb => ?_, fun hc => ?_, fun toks t => twoFactorWhile_exited fromJson toks s t,
    fun toks t => twoFactorWhile_cancelled fromJson toks s t⟩
  · rw [twoFactorWhile_retry fromJson token rest s body more h hc hr]
    obtain ⟨evs, he⟩ := twoFactorWhile_prompts fromJson rest { s with
          jsonObject := (fromJson body).object
          receivedToken := token
          tokens := rest
          replies := more
          trace := s.trace ++
            [.sendMessage (s.jsonObject.str "banner"),
             .log ["Partial authentication: starting 2 factor authentication."],
             .prompt (s.jsonObject.str "banner"),
             .post [("appToken", token), ("authToken", s.authToken)]] } hb
    exact ⟨evs, by rw [he]; simp⟩
  · rw [twoFactorWhile_retry fromJson token rest s body more h hc hr,
      twoFactorWhile_exit fromJson rest _ [] [] hb]
  · subst hc
    rw [twoFactorWhile_cancel fromJson rest s [] [] h]
    exact ⟨rfl, rfl⟩

/-- The witness of the amended C14: the first challenge answered with "111",
then a second challenge (the loop goes on) or a place in the queue (the loop is
left). -/
theorem loop_left_on_every_other_status_witness :
    (sampleFromJson bodyPartialA1).object.str "success" = "partial" ∧
    ("111" ≠ "cancel" ∧ (sampleFromJson bodyPartialA2).object.str "success" = "partial" ∧
      ∃ evs : List Event,
        (twoFactorWhile sampleFromJson ("111" :: ["222"])
          { jsonObject := (sampleFromJson bodyPartialA1).object, authToken := "A1",
            tokens := ["111", "222"], replies := [bodyPartialA2] } [] []).state.trace = [] ++
          [.sendMessage "Enter token",
           .log ["Partial authentication: starting 2 factor authentication."],
           .prompt "Enter token",
           .post [("appToken", "111"), ("authToken", "A1")],
           .sendMessage "Try again",
           .log ["Partial authentication: starting 2 factor authentication."],
           .prompt "Try again"] ++ evs) ∧
    ((sampleFromJson bodyDelayedQ1).object.str "success" ≠ "partial" ∧
      twoFactorWhile sampleFromJson ("111" :: ["222"])
          { jsonObject := (sampleFromJson bodyPartialA1).object, authToken := "A1",
            tokens := ["111", "222"], replies := [bodyDelayedQ1] } [] [] =
        .exited
          { jsonObject := (sampleFromJson bodyDelayedQ1).object, authToken := "A1",
            receivedToken := "111", tokens := ["222"], replies := [],
            trace := [] ++
              [.sendMessage "Enter token",
               .log ["Partial authentication: starting 2 factor authentication."],
               .prompt "Enter token",
               .post [("appToken", "111"), ("authToken", "A1")]] }) :=
  ⟨by decide,
    ⟨by decide, by decide,
      ((loop_left_on_every_other_status sampleFromJson
        { jsonObject := (sampleFromJson bodyPartialA1).object, authToken := "A1",
          tokens := ["111", "222"], replies := [bodyPartialA2] } "111" ["222"] bodyPartialA2 []
        (by decide) rfl).1 (by decide) (by decide)).2⟩,
    ⟨by decide,
      (loop_left_on_every_other_status sampleFromJson
        { jsonObject := (sampleFromJson bodyPartialA1).object, authToken := "A1",
          tokens := ["111", "222"], replies := [bodyDelayedQ1] } "111" ["222"] bodyDelayedQ1 []
        (by decide) rfl).2.1 (by decide) (by decide)⟩⟩

/-- C16: on every run, whether it returns or waits, the replies and tokens
consumed are a beginning of the script and the number of Transport calls is
one (the initial login) plus the number of delayed responses consumed plus
the number of tokens other than "cancel" that the user supplied; every
two-factor retry comes right after a prompt; and nothing, so no request,
follows an `authenticationFailed`, the signal of a rejected or unknown
response. -/
theorem requests_counted_and_prompted (replies : List QByteArray) (tokens : List String)
    (username password : String) :
    (∃ (usedReplies : List QByteArray) (usedTokens : List String),
      replies = usedReplies ++ (login fromJson replies tokens username password).state.replies ∧
      tokens = usedTokens ++ (login fromJson replies tokens username password).state.tokens ∧
      (posts (login fromJson replies tokens username password).state.trace).length =
        1 + usedReplies.countP (isDelayedBody fromJson) + usedTokens.countP isNonCancel) ∧
    retriesPrompted (login fromJson replies tokens username password).state.trace = true ∧
    (∀ pre post : List Event,
      (login fromJson replies tokens username password).state.trace =
        pre ++ .authenticationFailed :: post → post = []) := by
  refine ⟨?_, login_retries_prompted fromJson replies tokens username password, ?_⟩
  · obtain ⟨⟨ur, ut, h1, h2, h3⟩, _⟩ := login_counted fromJson replies tokens username password
    rw [login_owed, cfg_state] at h3
    rw [cfg_state] at h1 h2
    exact ⟨ur, ut, h1, h2, by omega⟩
  · intro pre post heq
    rcases login_counts fromJson replies tokens username password with hc | hl | hf | hc
    · exfalso
      have h2 := hc.2
      rw [heq] at h2
      simp [List.countP_append, List.countP_cons, Event.isAuthenticationFailed] at h2
    · exfalso
      have h2 := hl.2.2.1
      rw [heq] at h2
      simp [List.countP_append, List.countP_cons, Event.isAuthenticationFailed] at h2
    · exact hf.nothing_after pre post heq
    · exfalso
      have h2 := hc.2.2
      rw [heq] at h2
      simp [List.countP_append, List.countP_cons, Event.isAuthenticationFailed] at h2

/-- The witness of C16: a challenge answered with "111", a place in the queue,
then the rejection "nope": three requests, the failure last. -/
theorem requests_counted_and_prompted_witness :
    (∃ (usedReplies : List QByteArray) (usedTokens : List String),
      [bodyPartialA1, bodyDelayedQ1, bodyFalseNope] = usedReplies ++
        (login sampleFromJson [bodyPartialA1, bodyDelayedQ1, bodyFalseNope] ["111", "222"]
          "user" "pw").state.replies ∧
      ["111", "222"] = usedTokens ++
        (login sampleFromJson [bodyPartialA1, bodyDelayedQ1, bodyFalseNope] ["111", "222"]
          "user" "pw").state.tokens ∧
      (posts (login sampleFromJson [bodyPartialA1, bodyDelayedQ1, bodyFalseNope]
          ["111", "222"] "user" "pw").state.trace).length =
        1 + usedReplies.countP (isDelayedBody sampleFromJson) +
          usedTokens.countP isNonCancel) ∧
    retriesPrompted (login sampleFromJson [bodyPartialA1, bodyDelayedQ1, bodyFalseNope]
      ["111", "222"] "user" "pw").state.trace = true ∧
    ((login sampleFromJson [bodyPartialA1, bodyDelayedQ1, bodyFalseNope] ["111", "222"]
        "user" "pw").state.trace =
      [.sendMessage "Sending credentials to the TTR Servers",
       .post [("username", "user"), ("password", "pw")],
       .sendMessage "Enter token",
       .log ["Partial authentication: starting 2 factor authentication."],
       .prompt "Enter token",
       .post [("appToken", "111"), ("authToken", "A1")],
       .log ["Two Factor authentication complete"],
       .log ["Waiting in queue. ETA:", "5", ", Position in line:", "10"],
       .sendMessage "Waiting in queue. ETA: 5, Position in line: 10",
       .timerStart 500,
       .log ["Queued authentication: checking where we stand in line again."],
       .post [("queueToken", "Q1")],
       .sendMessage "nope",
       .log ["Login failed:", "nope"]] ++ .authenticationFailed :: []) ∧
    ([] : List Event) = [] :=
  ⟨(requests_counted_and_prompted sampleFromJson [bodyPartialA1, bodyDelayedQ1, bodyFalseNope]
      ["111", "222"] "user" "pw").1,
    (requests_counted_and_prompted sampleFromJson [bodyPartialA1, bodyDelayedQ1, bodyFalseNope]
      ["111", "222"] "user" "pw").2.1,
    by decide!,
    (requests_counted_and_prompted sampleFromJson [bodyPartialA1, bodyDelayedQ1, bodyFalseNope]
      ["111", "222"] "user" "pw").2.2
      [.sendMessage "Sending credentials to the TTR Servers",
       .post [("username", "user"), ("password", "pw")],
       .sendMessage "Enter token",
       .log ["Partial authentication: starting 2 factor authentication."],
       .prompt "Enter token",
       .post [("appToken", "111"), ("authToken", "A1")],
       .log ["Two Factor authentication complete"],
       .log ["Waiting in queue. ETA:", "5", ", Position in line:", "10"],
       .sendMessage "Waiting in queue. ETA: 5, Position in line: 10",
       .timerStart 500,
       .log ["Queued authentication: checking where we stand in line again."],
       .post [("queueToken", "Q1")],
       .sendMessage "nope",
       .log ["Login failed:", "nope"]] [] (by decide!)⟩

/-- C17: a run that returns has ended in exactly one of three ways: the game
was started (once, as the last event, and the response decoded last has the
status "true"), or `authenticationFailed` was signalled (once, as the last
event), or the run was cancelled (the cancel message and its log line are the
last events); no two of them hold together, and the game is started only if
the response decoded last has `success` "true". -/
theorem run_ends_in_one_way (replies : List QByteArray) (tokens : List String)
    (username password : String)
    (h : (login fromJson replies tokens username password).isReturned = true) :
    (EndsLaunched (login fromJson replies tokens username password).state ∨
      EndsFailed (login fromJson replies tokens username password).state ∨
      EndsCancelled (login fromJson replies tokens username password).state) ∧
    ¬ (EndsLaunched (login fromJson replies tokens username password).state ∧
      EndsFailed (login fromJson replies tokens username password).state) ∧
    ¬ (EndsLaunched (login fromJson replies tokens username password).state ∧
      EndsCancelled (login fromJson replies tokens username password).state) ∧
    ¬ (EndsFailed (login fromJson replies tokens username password).state ∧
      EndsCancelled (login fromJson replies tokens username password).state) ∧
    (0 < (login fromJson replies tokens username password).state.trace.countP
        Event.isStartGame →
      (login fromJson replies tokens username password).state.jsonObject.str "success"
        = "true") := by
  have he := login_ended fromJson replies tokens username password h
  refine ⟨he, ?_, ?_, ?_, ?_⟩
  · rintro ⟨hl, hf⟩
    have h1 := hl.2.1
    rw [hf.2.2] at h1
    cases h1
  · rintro ⟨hl, hc⟩
    have h1 := hl.2.1
    rw [hc.2.1] at h1
    cases h1
  · rintro ⟨hf, hc⟩
    have h1 := hf.2.1
    rw [hc.2.2] at h1
    cases h1
  · intro hpos
    rcases he with hl | hf | hc
    · exact hl.2.2.2
    · rw [hf.2.2] at hpos
      cases hpos
    · rw [hc.2.1] at hpos
      cases hpos

/-- The witness of C17: a challenge answered with "111", a place in the queue,
then success. -/
theorem run_ends_in_one_way_witness :
    (login sampleFromJson [bodyPartialA1, bodyDelayedQ1, bodySuccess] ["111"]
      "user" "pw").isReturned = true ∧
    (EndsLaunched (login sampleFromJson [bodyPartialA1, bodyDelayedQ1, bodySuccess] ["111"]
        "user" "pw").state ∨
      EndsFailed (login sampleFromJson [bodyPartialA1, bodyDelayedQ1, bodySuccess] ["111"]
        "user" "pw").state ∨
      EndsCancelled (login sampleFromJson [bodyPartialA1, bodyDelayedQ1, bodySuccess] ["111"]
        "user" "pw").state) ∧
    (0 < (login sampleFromJson [bodyPartialA1, bodyDelayedQ1, bodySuccess] ["111"]
        "user" "pw").state.trace.countP Event.isStartGame →
      (login sampleFromJson [bodyPartialA1, bodyDelayedQ1, bodySuccess] ["111"]
        "user" "pw").state.jsonObject.str "success" = "true") :=
  ⟨by decide!,
    (run_ends_in_one_way sampleFromJson [bodyPartialA1, bodyDelayedQ1, bodySuccess] ["111"]
      "user" "pw" (by decide!)).1,
    (run_ends_in_one_way sampleFromJson [bodyPartialA1, bodyDelayedQ1, bodySuccess] ["111"]
      "user" "pw" (by decide!)).2.2.2.2⟩

/-- C19: the credentials influence the initial request only.  For the same
server responses and user tokens, two runs with any two pairs of credentials
have the same trace after the progress message and the credentials request
(`rest`: every later request, every notification and log line, the timer
starts and the arguments of `startGame`), end in the same way and leave the
worker in the same state. -/
theorem credentials_only_in_first_request (replies : List QByteArray) (tokens : List String)
    (username password username2 password2 : String) :
    ∃ rest : List Event,
      (login fromJson replies tokens username password).state.trace =
        [.sendMessage "Sending credentials to the TTR Servers",
         .post [("username", username), ("password", password)]] ++ rest ∧
      (login fromJson replies tokens username2 password2).state.trace =
        [.sendMessage "Sending credentials to the TTR Servers",
         .post [("username", username2), ("password", password2)]] ++ rest ∧
      (login fromJson replies tokens username password).isReturned =
        (login fromJson replies tokens username2 password2).isReturned ∧
      (login fromJson replies tokens username password).state.jsonObject =
        (login fromJson replies tokens username2 password2).state.jsonObject ∧
      (login fromJson replies tokens username password).state.authToken =
        (login fromJson replies tokens username2 password2).state.authToken ∧
      (login fromJson replies tokens username password).state.lineToken =
        (login fromJson replies tokens username2 password2).state.lineToken ∧
      (login fromJson replies tokens username password).state.receivedToken =
        (login fromJson replies tokens username2 password2).state.receivedToken ∧
      (login fromJson replies tokens username password).state.timer =
        (login fromJson replies tokens username2 password2).state.timer ∧
      (login fromJson replies tokens username password).state.replies =
        (login fromJson replies tokens username2 password2).state.replies ∧
      (login fromJson replies tokens username password).state.tokens =
        (login fromJson replies tokens username2 password2).state.tokens := by
  rw [login_afterLogin fromJson replies tokens username password,
    login_afterLogin fromJson replies tokens username2 password2]
  refine ⟨(afterLogin fromJson replies tokens).state.trace, ?_⟩
  cases afterLogin fromJson replies tokens with
  | returned t => exact ⟨rfl, rfl, rfl, rfl, rfl, rfl, rfl, rfl, rfl, rfl⟩
  | waiting t => exact ⟨rfl, rfl, rfl, rfl, rfl, rfl, rfl, rfl, rfl, rfl⟩
  | outOfFuel t => exact ⟨rfl, rfl, rfl, rfl, rfl, rfl, rfl, rfl, rfl, rfl⟩

end LoginWorker
